import Mathlib

set_option maxRecDepth 8000

/-! Verification development for the eFactura invoice ingestion pipeline.

The definitions below are shallow embeddings of the Python services in
`app/services/` (invoice_service.py, sync_service.py, anaf_service.py):
Python strings become `List Char`, `xmltodict` trees become the inductive
`XVal`, `Decimal`/`float` values become `Dec` (an integer mantissa with a
base-10 exponent: the code only ever tests amounts for sign and zero, so
no cross-representation numeric equality is needed), and `None` becomes
`XVal.null` or `Option.none` depending on the slot's type. -/

/-- Characters of a Python string. -/
abbrev Str := List Char

/-- Character list of a Lean string literal. -/
def S (s : String) : Str := s.data

/-- Python `s.startswith(p)`. -/
def strStartsWith : Str → Str → Bool
  | _, [] => true
  | [], _ :: _ => false
  | c :: s, p :: ps => c == p && strStartsWith s ps

/-- Python `s.endswith(p)`. -/
def strHasSuffix (s p : Str) : Bool := strStartsWith s.reverse p.reverse

/-- Python `p in s` (substring containment). -/
def strContainsSub : Str → Str → Bool
  | [], needle => strStartsWith [] needle
  | c :: t, needle => strStartsWith (c :: t) needle || strContainsSub t needle

/-- Whitespace characters recognised by Python `str.strip()`. -/
def isPySpace (c : Char) : Bool :=
  c == ' ' || c == '\t' || c == '\n' || c == '\r' || c == '\x0b' || c == '\x0c'

/-- Python `s.strip()`. -/
def strStrip (s : Str) : Str :=
  ((s.dropWhile isPySpace).reverse.dropWhile isPySpace).reverse

/-- Python `s.lower()` (ASCII case folding, which is all the code relies on). -/
def strLower (s : Str) : Str := s.map Char.toLower

/-- Python `s[:n]` on a string. -/
def strTake (s : Str) (n : Nat) : Str := s.take n

/-- Python `s.isdigit()` restricted to ASCII digits, as used for CIF validation. -/
def strIsDigits (s : Str) : Bool := !s.isEmpty && s.all Char.isDigit

/-- Exact decimal number: `num / 10 ^ exp`.  Models both Python `Decimal`
and the `float` results of the line-item parsers; the services only ever
test these values for sign and zero and carry them around otherwise. -/
structure Dec where
  num : Int
  exp : Nat
deriving DecidableEq, Repr

/-- Rational value of a `Dec` (used to state exactness of extracted totals). -/
def Dec.toRat (d : Dec) : ℚ := (d.num : ℚ) / (10 : ℚ) ^ d.exp

/-- Numeric value of an ASCII digit string. -/
def digitsToNat : Str → Nat :=
  List.foldl (fun n c => 10 * n + (c.toNat - '0'.toNat)) 0

/-- Unsigned part of a decimal literal: `digits [. digits]`, at least one
digit in total (mirrors what `Decimal(...)`/`float(...)` accept on the
plain literals this code feeds them; exponent forms are not modelled). -/
def parseUnsignedDec (s : Str) : Option Dec :=
  let ip := s.takeWhile Char.isDigit
  let rest := s.dropWhile Char.isDigit
  match rest with
  | [] => if ip.isEmpty then none else some ⟨(digitsToNat ip : Nat), 0⟩
  | '.' :: fp =>
      if fp.all Char.isDigit && !(ip.isEmpty && fp.isEmpty) then
        some ⟨(digitsToNat ip * 10 ^ fp.length + digitsToNat fp : Nat), fp.length⟩
      else none
  | _ => none

/-- Python `Decimal(str(x))` / `float(x)` on a string: optional surrounding
whitespace, optional sign, then a plain decimal literal; anything else is
the `InvalidOperation`/`ValueError` the callers catch, i.e. `none`. -/
def parseDecimal (s0 : Str) : Option Dec :=
  match strStrip s0 with
  | '+' :: t => parseUnsignedDec t
  | '-' :: t => (parseUnsignedDec t).map (fun d => ⟨-d.num, d.exp⟩)
  | t => parseUnsignedDec t

/-- A calendar date as parsed by `datetime.strptime(_, "%Y-%m-%d").date()`. -/
abbrev Date := Nat × Nat × Nat

/-- Day count of a month, with leap years, as `datetime` validates them. -/
def daysInMonth (y m : Nat) : Nat :=
  if m = 2 then
    if y % 4 = 0 && (y % 100 ≠ 0 || y % 400 = 0) then 29 else 28
  else if m = 4 || m = 6 || m = 9 || m = 11 then 30
  else 31

/-- One `%Y`/`%m`/`%d` field: 1 to `w` ASCII digits. -/
def dateField (w : Nat) (s : Str) : Bool :=
  !s.isEmpty && s.length ≤ w && s.all Char.isDigit

/-- Split a character list on a separator character. -/
def splitOnChar (c : Char) (s : Str) : List Str :=
  match s with
  | [] => [[]]
  | a :: t =>
      let rest := splitOnChar c t
      if a == c then [] :: rest
      else
        match rest with
        | [] => [[a]]
        | r :: rs => (a :: r) :: rs

/-- Python `datetime.strptime(s, "%Y-%m-%d").date()`: three dash-separated
digit groups forming a real calendar date; anything else raises
`ValueError`, which every caller catches, i.e. `none`. -/
def parseDateYMD (s : Str) : Option Date :=
  match splitOnChar '-' s with
  | [ys, ms, ds] =>
      if dateField 4 ys && dateField 2 ms && dateField 2 ds then
        let y := digitsToNat ys
        let m := digitsToNat ms
        let d := digitsToNat ds
        if 1 ≤ m && m ≤ 12 && 1 ≤ d && d ≤ daysInMonth y m then
          some (y, m, d)
        else none
      else none
  | _ => none

/-- A value in an `xmltodict` parse tree: `None`, a string, a dict, or a
list of repeated elements. -/
inductive XVal where
  | null
  | str (s : Str)
  | dict (entries : List (Str × XVal))
  | list (items : List XVal)

/-- Python truthiness of an `xmltodict` value. -/
def xTruthy : XVal → Bool
  | .null => false
  | .str s => !s.isEmpty
  | .dict es => !es.isEmpty
  | .list l => !l.isEmpty

/-- Python `isinstance(v, dict)`. -/
def xIsDict : XVal → Bool
  | .dict _ => true
  | _ => false

/-- Python `isinstance(v, str)`. -/
def xIsStr : XVal → Bool
  | .str _ => true
  | _ => false

/-- Python `v is None`. -/
def xIsNull : XVal → Bool
  | .null => true
  | _ => false

/-- Python `k in d` for a dict (`False` on anything that is not a dict,
matching the guarded uses in the services). -/
def xHasKey : XVal → Str → Bool
  | .dict es, k => es.any (fun e => e.1 == k)
  | _, _ => false

/-- Python `d.get(k)` / `d[k]` for a dict: the stored value, or `None`. -/
def xGet : XVal → Str → XVal
  | .dict es, k =>
      match es.find? (fun e => e.1 == k) with
      | some e => e.2
      | none => .null
  | _, _ => .null

/-- Python `a or b`: `a` when truthy, otherwise `b` verbatim. -/
def pyOr (a b : XVal) : XVal := if xTruthy a then a else b

/-- Python `v == "lit"` where `v` may be any object: true only for an
equal string. -/
def xEqStr (v : XVal) (s : Str) : Bool :=
  match v with
  | .str t => t == s
  | _ => false

/-- Python `str(v)`.  The identity on strings — the only case the parsers
rely on; container and `None` reprs are abbreviated, which is faithful to
the only way the code consumes them (they never parse as numbers or
dates). -/
def pyStr : XVal → Str
  | .null => S "None"
  | .str s => s
  | .dict _ => S "\x7b...\x7d"
  | .list _ => S "[...]"

/-- One candidate key of `InvoiceService._safe_get`: a plain string key or
a list of keys for nested access. -/
inductive KeyPath where
  | single (k : Str)
  | chain (ks : List Str)

/-- The nested-access walk inside `_safe_get`: follow the keys while the
current value is a dict containing them, otherwise `None`. -/
def walkPath : XVal → List Str → XVal
  | v, [] => v
  | .dict es, k :: ks =>
      if xHasKey (.dict es) k then walkPath (xGet (.dict es) k) ks else .null
  | _, _ :: _ => .null

/-- The key-path loop of `InvoiceService._safe_get`: a present single key
returns its stored value (even `None`); a nested path is taken only when
it ends on a non-`None` value. -/
def safe_get_go (data : XVal) (dflt : XVal) : List KeyPath → XVal
  | [] => dflt
  | .single k :: rest =>
      if xHasKey data k then xGet data k else safe_get_go data dflt rest
  | .chain ks :: rest =>
      let r := walkPath data ks
      if !(xIsNull r) then r else safe_get_go data dflt rest

/-- `InvoiceService._safe_get(data, *keys, default=dflt)`. -/
def safe_get (data : XVal) (paths : List KeyPath) (dflt : XVal) : XVal :=
  match data with
  | .dict _ => safe_get_go data dflt paths
  | _ => dflt

/-- `InvoiceService._extract_text_value`: text of a string or of a dict's
`#text`-like members; empty/whitespace strings collapse to `None`. -/
def extract_text_value : XVal → XVal
  | .null => .null
  | .dict es =>
      pyOr (xGet (.dict es) (S "#text"))
        (pyOr (xGet (.dict es) (S "text")) (pyOr (xGet (.dict es) (S "@text")) .null))
  | .str s => if !(strStrip s).isEmpty then .str (strStrip s) else .null
  | .list l =>
      if l.isEmpty then .null
      else
        let r := pyStr (.list l)
        if !(strStrip r).isEmpty then .str (strStrip r) else .null

/-- A ZIP member: its name and the result of
`zip_file.read(name).decode("utf-8")` (`none` models a read or decode
exception). -/
abbrev ZipMember := Str × Option Str

/-- The invoice-content test of the content-scan loops of
`extract_unsigned_xml_from_zip` (invoice_service.py lines 44-46 and
68-70): Invoice root, or an XML prolog with an early `<Invoice` and no
early `<Signature` in the raw first 500 characters. -/
def scanAccepts (content : Str) : Bool :=
  let stripped := strStrip content
  strStartsWith stripped (S "<Invoice") ||
    (strStartsWith stripped (S "<?xml") &&
      strContainsSub (strTake content 500) (S "<Invoice") &&
      !strContainsSub (strTake content 500) (S "<Signature"))

/-- The `for xml_file in ...` content-scan loops of
`extract_unsigned_xml_from_zip`: read each member (a read exception hits
`except Exception: continue`), return the first member whose content
passes `scanAccepts`. -/
def contentScan : List ZipMember → Option Str × Option Str
  | [] => (none, none)
  | (n, c?) :: rest =>
      match c? with
      | none => contentScan rest
      | some c => if scanAccepts c then (some c, some n) else contentScan rest

/-- The `.xml`-named members of the archive (source line 28). -/
def xmlMembers (members : List ZipMember) : List ZipMember :=
  members.filter (fun m => strHasSuffix m.1 (S ".xml"))

/-- The members whose names do not carry the `semnatura_` signature
naming convention (source line 35). -/
def unsignedMembers (ms : List ZipMember) : List ZipMember :=
  ms.filter (fun m => !strStartsWith m.1 (S "semnatura_"))

/-- `InvoiceService.extract_unsigned_xml_from_zip`.  Members are listed in
`namelist()` order; a `none` read models the decode/read exceptions the
source catches (the inner loops continue, the top-level read returns
`(None, None)` through the outer `except`). -/
def extract_unsigned_xml_from_zip (members : List ZipMember) : Option Str × Option Str :=
  if (xmlMembers members).isEmpty then (none, none)
  else
    match unsignedMembers (xmlMembers members) with
    | [] => contentScan (xmlMembers members)
    | (uname, uread) :: _ =>
        match uread with
        | none => (none, none)
        | some xml_content =>
            if strStartsWith (strStrip xml_content) (S "<Signature") ||
                strContainsSub (strTake (strStrip xml_content) 500) (S "<Signature") then
              contentScan ((xmlMembers members).filter (fun m => !(m.1 == uname)))
            else if strStartsWith (strStrip xml_content) (S "<Invoice") ||
                (strStartsWith (strStrip xml_content) (S "<?xml") &&
                  strContainsSub (strTake xml_content 500) (S "<Invoice")) then
              (some xml_content, some uname)
            else (none, none)

/-- The result record of `parse_xml_to_json` (the `invoice_data` dict;
`error` is true exactly when the except-branch minimal structure with the
`error` key is returned). -/
structure InvoiceData where
  raw : XVal
  error : Bool
  supplier_name : XVal
  supplier_cif : XVal
  issuer_name : XVal
  receiver_name : XVal
  receiver_cif : XVal
  issuer_vat_id : XVal
  receiver_vat_id : XVal
  invoice_date : Option Date
  invoice_number : XVal
  total_amount : Option Dec
  currency : XVal

/-- The minimal structure `parse_xml_to_json` returns from its
`except Exception` branch (source lines 634-650). -/
def parseFailureResult : InvoiceData :=
  { raw := .dict [], error := true, supplier_name := .null, supplier_cif := .null,
    issuer_name := .null, receiver_name := .null, receiver_cif := .null,
    issuer_vat_id := .null, receiver_vat_id := .null, invoice_date := none,
    invoice_number := .null, total_amount := none, currency := .null }

/-- First of the candidate keys present in the dict (its value is taken
even when falsy), as in the `for possible_key in [...]` break loops. -/
def tryKeys (d : XVal) : List Str → XVal
  | [] => .null
  | k :: ks => if xHasKey d k then xGet d k else tryKeys d ks

/-- Python `obj.keys()` of a dict. -/
def xKeys : XVal → List Str
  | .dict es => es.map (fun e => e.1)
  | _ => []

/-- Invoice-root discovery of `parse_xml_to_json` (source lines 190-218):
a key named `Invoice`/`invoice`/`ubl:Invoice` when its value is truthy,
otherwise the first root key containing `Invoice` but not `Signature`,
otherwise the whole parse dict. -/
def findInvoiceRoot (invoice_dict : XVal) : XVal :=
  let r0 := tryKeys invoice_dict [S "Invoice", S "invoice", S "ubl:Invoice"]
  if xTruthy r0 then r0
  else
    let r1 :=
      match (xKeys invoice_dict).find?
          (fun k => strContainsSub k (S "Invoice") && !strContainsSub k (S "Signature")) with
      | some k => xGet invoice_dict k
      | none => .null
    if xTruthy r1 then r1 else invoice_dict

/-- Party-name resolution of `parse_xml_to_json` (identical for supplier,
lines 233-271, and customer, lines 329-365): PartyLegalEntity
RegistrationName first, then PartyName Name. -/
def extractPartyName (party : XVal) : XVal :=
  let party_legal_entity := safe_get party
    [.single (S "cac:PartyLegalEntity"), .single (S "PartyLegalEntity"),
     .single (S "partyLegalEntity")] (.dict [])
  let registration_name :=
    if xTruthy party_legal_entity then
      extract_text_value (safe_get party_legal_entity
        [.single (S "cbc:RegistrationName"), .single (S "RegistrationName"),
         .single (S "registrationName")] .null)
    else .null
  if xTruthy registration_name then registration_name
  else
    let party_name_obj := safe_get party
      [.single (S "cac:PartyName"), .single (S "PartyName"),
       .single (S "partyName")] (.dict [])
    let party_name := extract_text_value (safe_get party_name_obj
      [.single (S "cbc:Name"), .single (S "Name"), .single (S "name")] .null)
    if xTruthy party_name then party_name else .null

/-- The scheme-id lookup for one `PartyTaxScheme` block (source lines
293-301 / 385-393). -/
def taxSchemeId (ts : XVal) : XVal :=
  safe_get ts
    [.chain [S "cac:TaxScheme", S "cbc:ID"], .chain [S "TaxScheme", S "ID"],
     .chain [S "taxScheme", S "id"], .single (S "cbc:ID"), .single (S "ID"),
     .single (S "id")] .null

/-- Company-id text of one `PartyTaxScheme` block (source lines 305-311). -/
def taxSchemeCompanyId (ts : XVal) : XVal :=
  extract_text_value (safe_get ts
    [.single (S "cbc:CompanyID"), .single (S "CompanyID"),
     .single (S "companyID")] .null)

/-- The `for tax_scheme in tax_schemes:` loop of `parse_xml_to_json`
(identical for supplier and customer): take the first dict block whose
scheme id is absent/falsy or reads `VAT` and whose company id is truthy. -/
def vatSchemeLoop : List XVal → XVal
  | [] => .null
  | ts :: rest =>
      if !(xIsDict ts) then vatSchemeLoop rest
      else if !(xTruthy (taxSchemeId ts)) ||
          xEqStr (extract_text_value (taxSchemeId ts)) (S "VAT") then
        let company_id := taxSchemeCompanyId ts
        if xTruthy company_id then company_id else vatSchemeLoop rest
      else vatSchemeLoop rest

/-- Python `x if isinstance(x, list) else [x]`. -/
def asPyList : XVal → List XVal
  | .list l => l
  | v => [v]

/-- VAT-id resolution for one party block (source lines 275-315 /
368-407). -/
def extractPartyVatId (party : XVal) : XVal :=
  let tax_schemes := safe_get party
    [.single (S "cac:PartyTaxScheme"), .single (S "PartyTaxScheme"),
     .single (S "partyTaxScheme")] .null
  if xTruthy tax_schemes then vatSchemeLoop (asPyList tax_schemes) else .null

/-- Key test of `find_legal_monetary_total`. The source's second
disjunct, `'legalMonetaryTotal' in key.lower()`, is dead: a mixed-case
needle can never occur in a lowercased haystack, so the effective test
is only `'LegalMonetaryTotal' in key`. -/
def lmtKeyMatch (k : Str) : Bool :=
  strContainsSub k (S "LegalMonetaryTotal")

/-- List half of the value recursion of `find_legal_monetary_total`. -/
def lmtScanList (f : XVal → XVal) : List XVal → XVal
  | [] => .null
  | it :: rest =>
      match it with
      | .dict es =>
          let r := f (.dict es)
          if xTruthy r then r else lmtScanList f rest
      | _ => lmtScanList f rest

/-- Value recursion of `find_legal_monetary_total` over one level. -/
def lmtScanEntries (f : XVal → XVal) : List (Str × XVal) → XVal
  | [] => .null
  | (_, v) :: rest =>
      match v with
      | .dict es =>
          let r := f (.dict es)
          if xTruthy r then r else lmtScanEntries f rest
      | .list items =>
          let r := lmtScanList f items
          if xTruthy r then r else lmtScanEntries f rest
      | _ => lmtScanEntries f rest

/-- `find_legal_monetary_total` (source lines 468-490): key scan at the
current level first (its value returned even when falsy), then recursion
into dict/list values guarded by truthiness.  The fuel argument is
`max_depth + 1 - depth`; the source calls it with depth 0 and cuts at
depth > 5, i.e. fuel 6. -/
def find_legal_monetary_total : Nat → XVal → XVal
  | 0, _ => .null
  | fuel + 1, obj =>
      match obj with
      | .dict es =>
          match es.find? (fun e => lmtKeyMatch e.1) with
          | some e => e.2
          | none => lmtScanEntries (find_legal_monetary_total fuel) es
      | _ => .null

/-- First truthy `_safe_get(root, key)` over a key list, as in the
`for key in possible_keys:` loop. -/
def tryTruthyKeys (root : XVal) : List Str → XVal
  | [] => .null
  | k :: ks =>
      let v := safe_get root [.single k] .null
      if xTruthy v then v else tryTruthyKeys root ks

/-- The five direct lookups tried for `LegalMonetaryTotal` (source lines
453-464). -/
def lmtPossibleKeysLoop (root : XVal) : XVal :=
  tryTruthyKeys root
    [S "cac:LegalMonetaryTotal", S "LegalMonetaryTotal", S "legalMonetaryTotal",
     S "@LegalMonetaryTotal",
     S "urn:oasis:names:specification:ubl:schema:xsd:CommonAggregateComponents-2:LegalMonetaryTotal"]

/-- `extract_amount_and_currency` (source lines 498-516): currency from
the `@currencyID`/`currencyID` attribute of a dict value, amount from the
text parsed as `Decimal`. -/
def extract_amount_and_currency (amount_obj : XVal) : Option Dec × XVal :=
  if !(xTruthy amount_obj) then (none, .null)
  else
    let currency_value :=
      match amount_obj with
      | .dict es =>
          pyOr (xGet (.dict es) (S "@currencyID")) (xGet (.dict es) (S "currencyID"))
      | _ => .null
    let amount_text := extract_text_value amount_obj
    let amount_value :=
      if xTruthy amount_text then parseDecimal (pyStr amount_text) else none
    (amount_value, currency_value)

/-- The amount-name vocabulary of `find_amount_recursive` (source lines
598-602). -/
def amountPatterns : List Str :=
  [S "payableamount", S "taxinclusiveamount", S "taxexclusiveamount",
   S "totalamount", S "invoiceamount", S "amountdue", S "total",
   S "suma", S "totalgeneral", S "valoare", S "amount", S "sum"]

/-- `any(pattern in key_lower for pattern in amount_patterns)`. -/
def amountKeyMatch (k : Str) : Bool :=
  amountPatterns.any (fun p => strContainsSub (strLower k) p)

/-- Key pass of `find_amount_recursive` over one level: accept the first
amount-named key whose value parses to a strictly positive number. -/
def amountKeyScan : List (Str × XVal) → Option (Option Dec × XVal)
  | [] => none
  | (k, v) :: rest =>
      if amountKeyMatch k then
        match extract_amount_and_currency v with
        | (some d, c) => if 0 < d.num then some (some d, c) else amountKeyScan rest
        | (none, _) => amountKeyScan rest
      else amountKeyScan rest

/-- List half of the value recursion of `find_amount_recursive`. -/
def amountRecList (f : XVal → Option Dec × XVal) : List XVal → Option Dec × XVal
  | [] => (none, .null)
  | it :: rest =>
      match it with
      | .dict es =>
          let r := f (.dict es)
          if r.1.isSome then r else amountRecList f rest
      | _ => amountRecList f rest

/-- Value recursion of `find_amount_recursive` over one level. -/
def amountRecEntries (f : XVal → Option Dec × XVal) : List (Str × XVal) → Option Dec × XVal
  | [] => (none, .null)
  | (_, v) :: rest =>
      match v with
      | .dict es =>
          let r := f (.dict es)
          if r.1.isSome then r else amountRecEntries f rest
      | .list items =>
          let r := amountRecList f items
          if r.1.isSome then r else amountRecEntries f rest
      | _ => amountRecEntries f rest

/-- `find_amount_recursive` (source lines 586-623): amount-named keys of
the current level first (first strictly positive parse wins), then
recursion into dict/list values in order.  The fuel argument is
`max_depth + 1 - depth`; the source calls it with depth 0 and cuts at
depth > 8, i.e. fuel 9. -/
def find_amount_recursive : Nat → XVal → Option Dec × XVal
  | 0, _ => (none, .null)
  | fuel + 1, obj =>
      match obj with
      | .dict es =>
          match amountKeyScan es with
          | some res => res
          | none => amountRecEntries (find_amount_recursive fuel) es
      | _ => (none, .null)

/-- Python truthiness of the running `invoice_data['total_amount']`
(`None` and `Decimal` zero are falsy). -/
def decTruthy : Option Dec → Bool
  | some d => d.num ≠ 0
  | none => false

/-- One LegalMonetaryTotal candidate (source lines 521-533 and the three
analogous fallbacks): when the looked-up amount field is truthy, parse it
into the running total and back-fill the document currency from its
attribute. -/
def cascadeStep (lmt : XVal) (keys : List KeyPath) (st : Option Dec × XVal) :
    Option Dec × XVal :=
  let obj := safe_get lmt keys .null
  if xTruthy obj then
    let r := extract_amount_and_currency obj
    let t := match r.1 with | some d => some d | none => st.1
    let c := if xTruthy r.2 && !(xTruthy st.2) then r.2 else st.2
    (t, c)
  else st

/-- The LegalMonetaryTotal cascade of `parse_xml_to_json` (source lines
518-581): PayableAmount, then — each time the running total is still
falsy — TaxInclusiveAmount, TaxExclusiveAmount, LineExtensionAmount. -/
def legalMonetaryCascade (lmt : XVal) (currency0 : XVal) : Option Dec × XVal :=
  let st1 := cascadeStep lmt
    [.single (S "cbc:PayableAmount"), .single (S "PayableAmount"),
     .single (S "payableAmount")] (none, currency0)
  let st2 :=
    if !(decTruthy st1.1) then
      cascadeStep lmt
        [.single (S "cbc:TaxInclusiveAmount"), .single (S "TaxInclusiveAmount"),
         .single (S "taxInclusiveAmount")] st1
    else st1
  let st3 :=
    if !(decTruthy st2.1) then
      cascadeStep lmt
        [.single (S "cbc:TaxExclusiveAmount"), .single (S "TaxExclusiveAmount"),
         .single (S "taxExclusiveAmount")] st2
    else st2
  if !(decTruthy st3.1) then
    cascadeStep lmt
      [.single (S "cbc:LineExtensionAmount"), .single (S "LineExtensionAmount"),
       .single (S "lineExtensionAmount")] st3
  else st3

/-- `InvoiceService.parse_xml_to_json`.  The argument is the outcome of
the `xmltodict.parse` attempts: `none` when the document cannot be parsed
as markup at all (both attempts raise, so the outer `except` returns
`parseFailureResult`), `some tree` otherwise. -/
def parse_xml_to_json (parsed : Option XVal) : InvoiceData :=
  match parsed with
  | none => parseFailureResult
  | some invoice_dict =>
      let invoice_root := findInvoiceRoot invoice_dict
      let supplier_party := safe_get invoice_root
        [.chain [S "cac:AccountingSupplierParty", S "cac:Party"],
         .chain [S "AccountingSupplierParty", S "Party"],
         .chain [S "accountingSupplierParty", S "party"]] (.dict [])
      let issuer_name :=
        if xTruthy supplier_party then extractPartyName supplier_party else .null
      let issuer_vat :=
        if xTruthy supplier_party then extractPartyVatId supplier_party else .null
      let customer_party := safe_get invoice_root
        [.chain [S "cac:AccountingCustomerParty", S "cac:Party"],
         .chain [S "AccountingCustomerParty", S "Party"],
         .chain [S "accountingCustomerParty", S "party"]] (.dict [])
      let receiver_name :=
        if xTruthy customer_party then extractPartyName customer_party else .null
      let receiver_vat :=
        if xTruthy customer_party then extractPartyVatId customer_party else .null
      let issue_date := extract_text_value (safe_get invoice_root
        [.single (S "cbc:IssueDate"), .single (S "IssueDate"),
         .single (S "issueDate")] .null)
      let invoice_date :=
        if xTruthy issue_date then parseDateYMD (pyStr issue_date) else none
      let invoice_number := extract_text_value (safe_get invoice_root
        [.single (S "cbc:ID"), .single (S "ID"), .single (S "id"),
         .single (S "InvoiceNumber"), .single (S "invoiceNumber")] .null)
      let currencyDoc := extract_text_value (safe_get invoice_root
        [.single (S "cbc:DocumentCurrencyCode"), .single (S "DocumentCurrencyCode"),
         .single (S "documentCurrencyCode")] .null)
      let currency0 := if xTruthy currencyDoc then currencyDoc else .null
      let lmtCand := lmtPossibleKeysLoop invoice_root
      let lmt :=
        if xTruthy lmtCand then lmtCand else find_legal_monetary_total 6 invoice_root
      let st :=
        if xTruthy lmt then legalMonetaryCascade lmt currency0 else (none, currency0)
      let st2 :=
        if !(decTruthy st.1) then
          let r := find_amount_recursive 9 invoice_dict
          let t := match r.1 with | some d => some d | none => st.1
          let c := if xTruthy r.2 && !(xTruthy st.2) then r.2 else st.2
          (t, c)
        else st
      { raw := invoice_dict, error := false,
        supplier_name := issuer_name, supplier_cif := issuer_vat,
        issuer_name := issuer_name, receiver_name := receiver_name,
        receiver_cif := receiver_vat, issuer_vat_id := issuer_vat,
        receiver_vat_id := receiver_vat,
        invoice_date := invoice_date, invoice_number := invoice_number,
        total_amount := st2.1, currency := st2.2 }

/-- The tuple returned by `InvoiceService.extract_invoice_fields`. -/
structure ExtractedFields where
  supplier_name : XVal
  supplier_cif : XVal
  invoice_date : Option Date
  total_amount : Option Dec
  currency : XVal
  issuer_name : XVal
  receiver_name : XVal
  issuer_vat_id : XVal
  receiver_vat_id : XVal

/-- `InvoiceService.extract_invoice_fields`. -/
def extract_invoice_fields (d : InvoiceData) : ExtractedFields :=
  { supplier_name := d.supplier_name, supplier_cif := d.supplier_cif,
    invoice_date := d.invoice_date, total_amount := d.total_amount,
    currency := d.currency, issuer_name := d.issuer_name,
    receiver_name := d.receiver_name, issuer_vat_id := d.issuer_vat_id,
    receiver_vat_id := d.receiver_vat_id }

/-- `InvoiceService._is_empty_or_dash`: `None`, whitespace-only, or a
single dash after stripping; non-strings are not empty. -/
def is_empty_or_dash : XVal → Bool
  | .null => true
  | .str s => (strStrip s).isEmpty || strStrip s == S "-"
  | _ => false

/-- One extracted invoice line (the `line_item` dict of
`extract_invoice_line_items`). -/
structure LineItem where
  line_id : XVal
  item_name : XVal
  quantity : Option Dec
  unit_code : XVal
  unit_price : Option Dec
  line_total : Option Dec
  vat_rate : Option Dec
  vat_category : XVal
  currency : XVal

/-- Python `a or b or c`. -/
def pyOr3 (a b c : XVal) : XVal := pyOr a (pyOr b c)

/-- Python `a or b or c or d`. -/
def pyOr4 (a b c d : XVal) : XVal := pyOr a (pyOr b (pyOr c d))

/-- Python `float(x)` as the line-item parsers call it inside
`try/except (ValueError, TypeError)`: a parse of a string, `none` for
everything else. -/
def pyFloat : XVal → Option Dec
  | .str s => parseDecimal s
  | _ => none

/-- The `Item` sub-extraction of one line (source lines 918-1003):
name via `Name` falling back to `Description`, VAT rate and category via
`ClassifiedTaxCategory`. -/
def lineItemFromItemObj (item_obj : XVal) : XVal × Option Dec × XVal :=
  if xTruthy item_obj && xIsDict item_obj then
    let name0 := tryKeys item_obj [S "Name", S "name", S "cbc:Name"]
    let name_raw :=
      if xTruthy name0 then name0
      else safe_get item_obj
        [.single (S "Name"), .single (S "name"), .single (S "cbc:Name")] .null
    let n1 := extract_text_value name_raw
    let item_name :=
      if xTruthy n1 then n1
      else
        let d0 := tryKeys item_obj [S "Description", S "description", S "cbc:Description"]
        let desc_raw :=
          if xTruthy d0 then d0
          else safe_get item_obj
            [.single (S "Description"), .single (S "description"),
             .single (S "cbc:Description")] .null
        extract_text_value desc_raw
    let tax_category_obj := safe_get item_obj
      [.single (S "cac:ClassifiedTaxCategory"), .single (S "ClassifiedTaxCategory"),
       .single (S "classifiedTaxCategory")] (.dict [])
    if xTruthy tax_category_obj then
      let vrt := extract_text_value (safe_get tax_category_obj
        [.single (S "cbc:Percent"), .single (S "Percent"), .single (S "percent")] .null)
      let vr := if xTruthy vrt then pyFloat vrt else none
      let vc := extract_text_value (safe_get tax_category_obj
        [.single (S "cbc:ID"), .single (S "ID"), .single (S "id")] .null)
      (item_name, vr, vc)
    else (item_name, none, .null)
  else (.null, none, .null)

/-- The loop body of `extract_invoice_line_items` for one dict line
(source lines 890-1116). -/
def buildLineItem (line : XVal) : LineItem :=
  let lid0 := pyOr3 (xGet line (S "ID")) (xGet line (S "id")) (xGet line (S "cbc:ID"))
  let line_id_raw :=
    if xTruthy lid0 then lid0
    else safe_get line [.single (S "ID"), .single (S "id"), .single (S "cbc:ID")] .null
  let line_id := extract_text_value line_id_raw
  let item0 := pyOr3 (xGet line (S "Item")) (xGet line (S "item")) (xGet line (S "cac:Item"))
  let item_obj :=
    if xTruthy item0 then item0
    else safe_get line
      [.single (S "Item"), .single (S "item"), .single (S "cac:Item")] (.dict [])
  let itemTriple := lineItemFromItemObj item_obj
  let q0 := pyOr3 (xGet line (S "InvoicedQuantity")) (xGet line (S "invoicedQuantity"))
    (xGet line (S "cbc:InvoicedQuantity"))
  let quantity_obj :=
    if xTruthy q0 then q0
    else safe_get line
      [.single (S "InvoicedQuantity"), .single (S "invoicedQuantity"),
       .single (S "cbc:InvoicedQuantity")] .null
  let qPair : Option Dec × XVal :=
    if xTruthy quantity_obj then
      match quantity_obj with
      | .dict es =>
          let uc := pyOr4 (xGet (.dict es) (S "@unitCode")) (xGet (.dict es) (S "unitCode"))
            (xGet (.dict es) (S "@unitcode")) (xGet (.dict es) (S "unitcode"))
          let qt := extract_text_value (.dict es)
          (if xTruthy qt then pyFloat qt else none, uc)
      | v =>
          let qt : XVal := .str (pyStr v)
          (if xTruthy qt then pyFloat qt else none, .null)
    else (none, .null)
  let p0 := pyOr3 (xGet line (S "Price")) (xGet line (S "price")) (xGet line (S "cac:Price"))
  let price_obj :=
    if xTruthy p0 then p0
    else safe_get line
      [.single (S "Price"), .single (S "price"), .single (S "cac:Price")] (.dict [])
  let pPair : Option Dec × XVal :=
    if xTruthy price_obj && xIsDict price_obj then
      let pa0 := tryKeys price_obj [S "PriceAmount", S "priceAmount", S "cbc:PriceAmount"]
      let price_amount_obj :=
        if xTruthy pa0 then pa0
        else safe_get price_obj
          [.single (S "PriceAmount"), .single (S "priceAmount"),
           .single (S "cbc:PriceAmount")] .null
      if xTruthy price_amount_obj then
        match price_amount_obj with
        | .dict es =>
            let cc := pyOr4 (xGet (.dict es) (S "@currencyID")) (xGet (.dict es) (S "currencyID"))
              (xGet (.dict es) (S "@currencyid")) (xGet (.dict es) (S "currencyid"))
            let cur := if xTruthy cc then cc else .null
            let pt := extract_text_value (.dict es)
            (if xTruthy pt then pyFloat pt else none, cur)
        | v =>
            let pt : XVal := .str (pyStr v)
            (if xTruthy pt then pyFloat pt else none, .null)
      else (none, .null)
    else (none, .null)
  let lt0 := pyOr3 (xGet line (S "LineExtensionAmount")) (xGet line (S "lineExtensionAmount"))
    (xGet line (S "cbc:LineExtensionAmount"))
  let line_total_obj :=
    if xTruthy lt0 then lt0
    else safe_get line
      [.single (S "LineExtensionAmount"), .single (S "lineExtensionAmount"),
       .single (S "cbc:LineExtensionAmount")] .null
  let ltPair : Option Dec × XVal :=
    if xTruthy line_total_obj then
      match line_total_obj with
      | .dict es =>
          let cur2 :=
            if !(xTruthy pPair.2) then
              let cc := pyOr4 (xGet (.dict es) (S "@currencyID")) (xGet (.dict es) (S "currencyID"))
                (xGet (.dict es) (S "@currencyid")) (xGet (.dict es) (S "currencyid"))
              if xTruthy cc then cc else pPair.2
            else pPair.2
          let ltt := extract_text_value (.dict es)
          (if xTruthy ltt then pyFloat ltt else none, cur2)
      | v =>
          let ltt : XVal := .str (pyStr v)
          (if xTruthy ltt then pyFloat ltt else none, pPair.2)
    else (none, pPair.2)
  { line_id := line_id, item_name := itemTriple.1, quantity := qPair.1,
    unit_code := qPair.2, unit_price := pPair.1, line_total := ltPair.1,
    vat_rate := itemTriple.2.1, vat_category := itemTriple.2.2,
    currency := ltPair.2 }

/-- The `has_data` retention test of `extract_invoice_line_items`
(source lines 1120-1126): only line id, item name, quantity, unit price
and line total are consulted. -/
def lineItemHasData (it : LineItem) : Bool :=
  xTruthy it.line_id || xTruthy it.item_name || it.quantity.isSome ||
    it.unit_price.isSome || it.line_total.isSome

/-- The `for line in invoice_lines_raw:` loop of
`extract_invoice_line_items` (source lines 886-1137), applied to the
already-located list of line blocks (non-dict entries are skipped, items
are kept only when `has_data` holds). -/
def extract_invoice_line_items_loop (lines : List XVal) : List LineItem :=
  lines.filterMap (fun line =>
    if xIsDict line then
      (if lineItemHasData (buildLineItem line) then some (buildLineItem line) else none)
    else none)

/-- The persisted invoice record fields touched by the enrichment passes
(the ORM `Invoice` columns the sync and reparse passes read or write):
string columns hold `XVal` Python values (`None` or text), the
exact-decimal total and the date are typed. -/
structure InvoiceRec where
  invoice_type : XVal
  cif_emitent : XVal
  cif_beneficiar : XVal
  issuer_name : XVal
  receiver_name : XVal
  supplier_name : XVal
  supplier_cif : XVal
  currency : XVal
  total_amount : Option Dec
  invoice_date : Option Date
  xml_content : Option Str
  zip_file_path : Option Str

/-- Listing metadata for one message as the sync loop parses it
(sync_service.py lines 348-379): `tip`, the `cif_emitent=`/
`cif_beneficiar=` regex captures from `detalii`, and the date parsed from
`data_creare`. -/
structure ListingMsg where
  invoice_type : XVal
  cif_emitent : XVal
  cif_beneficiar : XVal
  invoice_date_from_response : Option Date

/-- Python truthiness of an optional string. -/
def optStrTruthy : Option Str → Bool
  | some s => !s.isEmpty
  | none => false

/-- The update path of `_sync_company_invoices_impl` for an already-known
message (sync_service.py lines 395-493).  `download` models the artifact
retrieval attempted once `needs_update` holds: `none` is a download
exception (the `except` at line 488), `some none` is a download whose
content yielded no usable XML, `some (some f)` is a successful download
whose XML extracted to the fields `f` (via `parse_xml_to_json` and
`extract_invoice_fields`).  `zipSavePath` is the `save_zip_file` result
(`none` also covers a save failure, caught at line 486). -/
def syncUpdateExisting (existing : InvoiceRec) (msg : ListingMsg)
    (download : Option (Option ExtractedFields)) (zipSavePath : Option Str) :
    InvoiceRec :=
  let u1 := !(xTruthy existing.invoice_type) && xTruthy msg.invoice_type
  let u2 := !(xTruthy existing.cif_emitent) && xTruthy msg.cif_emitent
  let u3 := !(xTruthy existing.cif_beneficiar) && xTruthy msg.cif_beneficiar
  let s1 : InvoiceRec :=
    { existing with
      invoice_type := if u1 then msg.invoice_type else existing.invoice_type,
      cif_emitent := if u2 then msg.cif_emitent else existing.cif_emitent,
      cif_beneficiar := if u3 then msg.cif_beneficiar else existing.cif_beneficiar }
  if !(u1 || u2 || u3) then s1
  else
    match download with
    | none => s1
    | some none => s1
    | some (some f) =>
        { s1 with
          issuer_name :=
            if is_empty_or_dash s1.issuer_name && xTruthy f.issuer_name then
              f.issuer_name
            else s1.issuer_name,
          receiver_name :=
            if is_empty_or_dash s1.receiver_name && xTruthy f.receiver_name then
              f.receiver_name
            else s1.receiver_name,
          cif_emitent :=
            if is_empty_or_dash s1.cif_emitent && xTruthy f.issuer_vat_id then
              f.issuer_vat_id
            else s1.cif_emitent,
          cif_beneficiar :=
            if is_empty_or_dash s1.cif_beneficiar && xTruthy f.receiver_vat_id then
              f.receiver_vat_id
            else s1.cif_beneficiar,
          total_amount :=
            if s1.total_amount.isNone && f.total_amount.isSome then f.total_amount
            else s1.total_amount,
          currency :=
            if is_empty_or_dash s1.currency && xTruthy f.currency then f.currency
            else s1.currency,
          invoice_date :=
            match msg.invoice_date_from_response with
            | some d =>
                if s1.invoice_date.isNone || !(s1.invoice_date == some d) then some d
                else s1.invoice_date
            | none =>
                match f.invoice_date with
                | some dx => if s1.invoice_date.isNone then some dx else s1.invoice_date
                | none => s1.invoice_date,
          zip_file_path :=
            if !(optStrTruthy s1.zip_file_path) then
              match zipSavePath with
              | some p => some p
              | none => s1.zip_file_path
            else s1.zip_file_path }

/-- The guarded field back-fill block of `InvoiceService.reparse_invoice`
(invoice_service.py lines 1280-1315): each sentinel/missing field is
back-filled from the freshly extracted fields; returns the updated record
together with whether any field changed. -/
def reparseApply (inv1 : InvoiceRec) (f : ExtractedFields) : InvoiceRec × Bool :=
  let g1 := is_empty_or_dash inv1.issuer_name && xTruthy f.issuer_name
  let g2 := is_empty_or_dash inv1.receiver_name && xTruthy f.receiver_name
  let g3 := is_empty_or_dash inv1.cif_emitent && xTruthy f.issuer_vat_id
  let g4 := is_empty_or_dash inv1.cif_beneficiar && xTruthy f.receiver_vat_id
  let g5 := inv1.total_amount.isNone && f.total_amount.isSome
  let g6 := is_empty_or_dash inv1.currency && xTruthy f.currency
  let g7 := is_empty_or_dash inv1.supplier_name && xTruthy f.issuer_name
  let g8 := is_empty_or_dash inv1.supplier_cif && xTruthy f.issuer_vat_id
  ({ inv1 with
      issuer_name := if g1 then f.issuer_name else inv1.issuer_name,
      receiver_name := if g2 then f.receiver_name else inv1.receiver_name,
      cif_emitent := if g3 then f.issuer_vat_id else inv1.cif_emitent,
      cif_beneficiar := if g4 then f.receiver_vat_id else inv1.cif_beneficiar,
      total_amount := if g5 then f.total_amount else inv1.total_amount,
      currency := if g6 then f.currency else inv1.currency,
      supplier_name := if g7 then f.issuer_name else inv1.supplier_name,
      supplier_cif := if g8 then f.issuer_vat_id else inv1.supplier_cif },
   g1 || g2 || g3 || g4 || g5 || g6 || g7 || g8)

/-- `InvoiceService.reparse_invoice` (invoice_service.py lines
1216-1325).  `zipXml` is the outcome of the attempt to extract unsigned
XML from the stored ZIP (`none` covers a missing ZIP, a read failure, or
an extraction that found nothing); `xmlDict` is the `xmltodict.parse`
oracle fed to `parse_xml_to_json`.  Returns the updated record and the
`updated` flag. -/
def reparse_invoice (invoice : InvoiceRec) (zipXml : Option Str)
    (xmlDict : Str → Option XVal) : InvoiceRec × Bool :=
  let xml_content_to_parse :=
    match zipXml with
    | some x => if !x.isEmpty then some x else invoice.xml_content
    | none => invoice.xml_content
  match xml_content_to_parse with
  | none => (invoice, false)
  | some xml =>
      if xml.isEmpty then (invoice, false)
      else
        let xml_content_updated := !(invoice.xml_content == some xml)
        let inv1 := { invoice with xml_content := some xml }
        let r := reparseApply inv1 (extract_invoice_fields (parse_xml_to_json (xmlDict xml)))
        (r.1, xml_content_updated || r.2)

/-- `_calculate_sync_days` (sync_service.py lines 17-61).
`invoiceCount` is the company's invoice count; `lastSyncDays` is
`(now - last_sync_date).days` for the most recent `synced_at` timestamp
(`none` when no invoice carries one, which the source also answers with
60). -/
def calculate_sync_days (invoiceCount : Nat) (lastSyncDays : Option Int) : Int :=
  if invoiceCount = 0 then 60
  else
    match lastSyncDays with
    | none => 60
    | some days_diff => min 60 (max 1 (days_diff + 1))

/-- The `zile` validation of `ANAFService.lista_mesaje_factura`
(anaf_service.py lines 73-76): `ValueError` outside `[1, 60]`.  The
argument is statically an `int` wherever the orchestrator calls it, which
the `Int` type captures; non-integer arguments are outside the model. -/
def lista_mesaje_zile_rejected (zile : Int) : Bool := zile < 1 || zile > 60

/-- The response-wrapper unwrapping of the listing calls (anaf_service.py
lines 269-276): a dict wrapped under `data`/`result`/`response` is
unwrapped. -/
def unwrapResponse (r : XVal) : XVal :=
  match r with
  | .dict es =>
      if xHasKey (.dict es) (S "data") && xIsDict (xGet (.dict es) (S "data")) then
        xGet (.dict es) (S "data")
      else if xHasKey (.dict es) (S "result") && xIsDict (xGet (.dict es) (S "result")) then
        xGet (.dict es) (S "result")
      else if xHasKey (.dict es) (S "response") && xIsDict (xGet (.dict es) (S "response")) then
        xGet (.dict es) (S "response")
      else r
  | _ => r

/-- The error check of the paginated loop (anaf_service.py lines
279-284): a present `eroare` whose text does not mention `paginatie`
raises `ValueError`; a pagination-related `eroare` is let through. -/
def pageError (r : XVal) : Option Str :=
  if xHasKey r (S "eroare") then
    let msg := pyStr (xGet r (S "eroare"))
    if !(strContainsSub (strLower msg) (S "paginatie")) then some msg else none
  else none

/-- `response_data.get('mesaje', [])`. -/
def mesajeField (r : XVal) : XVal :=
  match r with
  | .dict es =>
      if xHasKey (.dict es) (S "mesaje") then xGet (.dict es) (S "mesaje")
      else .list []
  | _ => .list []

/-- `.get(k, dflt)` on a response dict. -/
def respGet (r : XVal) (k : Str) (dflt : XVal) : XVal :=
  match r with
  | .dict es => if xHasKey (.dict es) k then xGet (.dict es) k else dflt
  | _ => dflt

/-- The combined result `lista_mesaje_factura_paginated` returns (anaf
lines 322-328). -/
structure PagResult where
  mesaje : List XVal
  serial : XVal
  cui : XVal
  titlu : XVal

/-- The `while True:` pagination loop of
`ANAFService.lista_mesaje_factura_paginated` (anaf_service.py lines
238-317).  `provider p` is the JSON body the provider answers for page
`p` (already decoded; `mesaje` is read as a list per the documented
schema).  The recursion measure is `1001 - pagina`: the source's hard
ceiling (`pagina += 1; if pagina > 1000: break`) is exactly what bounds
it. -/
def paginatedLoop (cif : Str) (provider : Nat → XVal) (pagina_size : Nat)
    (pagina : Nat) (acc : List XVal) (meta : XVal × XVal × XVal) :
    Except Str PagResult :=
  let response_data := unwrapResponse (provider pagina)
  match pageError response_data with
  | some e => .error e
  | none =>
      let pm := mesajeField response_data
      if !(xTruthy pm) then
        .ok ⟨acc, meta.1, pyOr meta.2.1 (.str cif), meta.2.2⟩
      else
        let page_mesaje := asPyList pm
        let acc2 := acc ++ page_mesaje
        let meta2 :=
          if pagina = 1 then
            (respGet response_data (S "serial") (.str []),
             respGet response_data (S "cui") (.str cif),
             respGet response_data (S "titlu") (.str []))
          else meta
        if page_mesaje.length < pagina_size then
          .ok ⟨acc2, meta2.1, pyOr meta2.2.1 (.str cif), meta2.2.2⟩
        else if pagina + 1 > 1000 then
          .ok ⟨acc2, meta2.1, pyOr meta2.2.1 (.str cif), meta2.2.2⟩
        else paginatedLoop cif provider pagina_size (pagina + 1) acc2 meta2
termination_by 1001 - pagina
decreasing_by omega

/-- `ANAFService.lista_mesaje_factura_paginated`: parameter validation
(anaf lines 219-223) followed by the pagination loop; the page size
defaults to 500. -/
def lista_mesaje_factura_paginated (cif : Str) (zile : Int) (pagina_size : Nat)
    (provider : Nat → XVal) : Except Str PagResult :=
  if zile < 1 || zile > 90 then .error (S "zile must be an integer between 1 and 90")
  else if !(strIsDigits cif) then .error (S "cif must be a string containing only digits")
  else paginatedLoop cif provider pagina_size 1 [] (.str [], .str [], .str [])

/-- Number of provider calls the pagination loop makes (same recursion
structure as `paginatedLoop`). -/
def paginatedCalls (provider : Nat → XVal) (pagina_size : Nat) (pagina : Nat) : Nat :=
  let response_data := unwrapResponse (provider pagina)
  match pageError response_data with
  | some _ => 1
  | none =>
      let pm := mesajeField response_data
      if !(xTruthy pm) then 1
      else
        let page_mesaje := asPyList pm
        if page_mesaje.length < pagina_size then 1
        else if pagina + 1 > 1000 then 1
        else 1 + paginatedCalls provider pagina_size (pagina + 1)
termination_by 1001 - pagina
decreasing_by omega

/-- The invoice-document qualification test implied by the accept sites of
`extract_unsigned_xml_from_zip` (its line 77-78 form; the scan loops
accept strictly less): stripped content rooted at `<Invoice`, or an XML
prolog with `<Invoice` in the raw first 500 characters. -/
def invoiceQualifies (c : Str) : Bool :=
  strStartsWith (strStrip c) (S "<Invoice") ||
    (strStartsWith (strStrip c) (S "<?xml") &&
      strContainsSub (strTake c 500) (S "<Invoice"))

/-- A totals-block candidate as a Python value: a string or `None`. -/
def cand : Option Str → XVal
  | some s => .str s
  | none => .null

/-- A `LegalMonetaryTotal` block holding the four cascade candidates. -/
def mkLMT4 (o1 o2 o3 o4 : Option Str) : XVal :=
  .dict [(S "PayableAmount", cand o1), (S "TaxInclusiveAmount", cand o2),
         (S "TaxExclusiveAmount", cand o3), (S "LineExtensionAmount", cand o4)]

/-- The decimal a present candidate's text parses to (empty/whitespace
candidates are falsy and parse to nothing). -/
def candidateParse (o : Option Str) : Option Dec :=
  o.bind (fun s => if (strStrip s).isEmpty then none else parseDecimal (strStrip s))

/-- What one cascade stage makes of a string-or-absent candidate. -/
def stepCand (o : Option Str) (st : Option Dec × XVal) : Option Dec × XVal :=
  match candidateParse o with
  | some d => (some d, st.2)
  | none => st

/-- Uniformly-gated candidate sequence (each stage runs only while the
running total is falsy; the first stage's missing gate is harmless since
the total starts as `None`). -/
def stepsCand : List (Option Str) → Option Dec × XVal → Option Dec × XVal
  | [], st => st
  | o :: os, st => stepsCand os (if !(decTruthy st.1) then stepCand o st else st)

/-- The totals accumulator in isolation: successive parses overwrite the
running value while it is still falsy. -/
def goCascade : Option Dec → List (Option Dec) → Option Dec
  | cur, [] => cur
  | cur, p :: rest =>
      if decTruthy cur then cur
      else
        goCascade (match p with | some d => some d | none => cur) rest

/-- Last element of a list of parsed decimals. -/
def lastParsed : List Dec → Option Dec
  | [] => none
  | [d] => some d
  | _ :: d :: rest => lastParsed (d :: rest)

/-- Amended totals rule (spec side): the first candidate, in cascade
order, whose text parses to a nonzero decimal; failing that, the last
candidate that parses at all (necessarily zero); failing that, no
total. -/
def specFirstNonzero (os : List (Option Str)) : Option Dec :=
  let qs := os.filterMap candidateParse
  match qs.find? (fun d => d.num ≠ 0) with
  | some d => some d
  | none => lastParsed qs

/-- Eligibility of one tax-scheme block per the source's loop condition:
untagged (falsy scheme id) or explicitly tagged `VAT`. -/
def specVatEligible (ts : XVal) : Bool :=
  !(xTruthy (taxSchemeId ts)) || xEqStr (extract_text_value (taxSchemeId ts)) (S "VAT")

/-- Amended VAT rule (spec side): the company id of the first dict block,
in document order, that is untagged-or-VAT-tagged and carries a truthy
company id. -/
def specVatPick (schemes : List XVal) : XVal :=
  match schemes.find?
      (fun ts => xIsDict ts && specVatEligible ts && xTruthy (taxSchemeCompanyId ts)) with
  | some ts => taxSchemeCompanyId ts
  | none => .null

/-- Amended line-retention rule (spec side): at least one of line id,
item name, quantity, unit price, line total is non-empty. -/
def specLineKept (it : LineItem) : Bool :=
  xTruthy it.line_id || xTruthy it.item_name || it.quantity.isSome ||
    it.unit_price.isSome || it.line_total.isSome

/-- The §8 lookback formulation: `max(1, elapsed_days)` clamped to the
configured maximum of 60. -/
def spec8_window (d : Int) : Int := min 60 (max 1 d)

/-- Populated invoice record for the C1 scenarios: every enrichment field
already carries a value; `invoice_type` is empty so the listing pass
enters its update branch. -/
def c1Invoice : InvoiceRec :=
  { invoice_type := .null,
    cif_emitent := .str (S "111"), cif_beneficiar := .str (S "222"),
    issuer_name := .str (S "ACME SRL"), receiver_name := .str (S "BETA SRL"),
    supplier_name := .str (S "ACME SRL"), supplier_cif := .str (S "111"),
    currency := .str (S "RON"), total_amount := some ⟨40000, 2⟩,
    invoice_date := some (2025, 1, 1), xml_content := some (S "<Invoice/>"),
    zip_file_path := none }

/-- Listing metadata whose creation date differs from the stored invoice
date. -/
def c1Msg : ListingMsg :=
  { invoice_type := .str (S "FACTURA PRIMITA"),
    cif_emitent := .str (S "999"), cif_beneficiar := .str (S "888"),
    invoice_date_from_response := some (2025, 2, 2) }

/-- Freshly extracted fields, all differing from the stored ones. -/
def c1Fields : ExtractedFields :=
  { supplier_name := .str (S "OTHER SRL"), supplier_cif := .str (S "999"),
    invoice_date := some (2025, 3, 3), total_amount := some ⟨1, 0⟩,
    currency := .str (S "EUR"), issuer_name := .str (S "OTHER SRL"),
    receiver_name := .str (S "GAMMA SRL"), issuer_vat_id := .str (S "999"),
    receiver_vat_id := .str (S "888") }

/-- Signature-wrapper content used in the C2 scenarios. -/
def sigContent : Str := S "<Signature xmlns=\"ds\"><SignedInfo/></Signature>"

/-- Invoice-document content used in the C2 scenarios. -/
def invContent : Str := S "<Invoice xmlns=\"ubl\"><ID>1</ID></Invoice>"

/-- C2 counterexample archive: the signature member is named `*.xml`, the
invoice member is not. -/
def c2CexMembers : List ZipMember :=
  [(S "sig.xml", some sigContent), (S "inv.txt", some invContent)]

/-- C3 counterexample document: the payable amount is populated with the
non-empty value `0`, the tax-inclusive amount with `5`. -/
def c3ZeroDoc : XVal :=
  .dict [(S "Invoice", .dict [(S "LegalMonetaryTotal",
    .dict [(S "PayableAmount", .str (S "0")),
           (S "TaxInclusiveAmount", .str (S "5"))])])]

/-- C3 fallback document: no totals block anywhere; the only
amount-vocabulary field is a nested `suma` of `120.50` with no currency
attribute. -/
def c3FallbackDoc : XVal :=
  .dict [(S "Invoice", .dict [(S "Header", .dict [(S "suma", .str (S "120.50"))])])]

/-- An untagged tax-scheme block with company id `111`. -/
def c6SchemeUntagged : XVal := .dict [(S "CompanyID", .str (S "111"))]

/-- A `VAT`-tagged tax-scheme block with company id `222`. -/
def c6SchemeVat : XVal :=
  .dict [(S "TaxScheme", .dict [(S "ID", .str (S "VAT"))]),
         (S "CompanyID", .str (S "222"))]

/-- Supplier document whose party carries the given tax-scheme list. -/
def c6DocWith (schemes : List XVal) : XVal :=
  .dict [(S "Invoice", .dict [(S "AccountingSupplierParty", .dict [(S "Party",
    .dict [(S "PartyTaxScheme", .list schemes)])])])]

/-- C6 counterexample document: first scheme untagged, second tagged
`VAT`. -/
def c6Doc : XVal := c6DocWith [c6SchemeUntagged, c6SchemeVat]

/-- A provider answering messages on page 1 and the pagination end
signal from page 2 on. -/
def c7Provider : Nat → XVal := fun p =>
  if p = 1 then .dict [(S "mesaje", .list [.str (S "m1")])]
  else .dict [(S "eroare", .str (S "eroare de paginatie"))]

/-- A provider whose first page is a genuine error payload. -/
def c7ProviderErr : Nat → XVal := fun _ =>
  .dict [(S "eroare", .str (S "token invalid"))]

/-- C8 counterexample line: only the VAT category is populated. -/
def c8VatOnlyLine : XVal :=
  .dict [(S "Item", .dict [(S "ClassifiedTaxCategory",
    .dict [(S "ID", .str (S "S"))])])]

/-- C8 line with a line id and an unparsable quantity. -/
def c8UnparsableQtyLine : XVal :=
  .dict [(S "ID", .str (S "1")), (S "InvoicedQuantity", .str (S "abc"))]

/-- A populated enrichment value in the sense of the data-model invariant:
an actual string that is neither empty nor the `-` sentinel after
stripping. -/
def populatedStr : XVal → Bool
  | .str s => !(strStrip s).isEmpty && !(strStrip s == S "-")
  | _ => false

theorem strip_nonempty_of_populated {s : Str} (h : (strStrip s).isEmpty = false) :
    s.isEmpty = false := by
  cases s with
  | nil => simp [strStrip] at h
  | cons a t => rfl

theorem populated_truthy {v : XVal} (h : populatedStr v = true) : xTruthy v = true := by
  cases v with
  | str s =>
      simp only [populatedStr, Bool.and_eq_true, Bool.not_eq_true'] at h
      simp [xTruthy, strip_nonempty_of_populated h.1]
  | null => simp [populatedStr] at h
  | dict es => simp [populatedStr] at h
  | list l => simp [populatedStr] at h

theorem populated_not_empty_dash {v : XVal} (h : populatedStr v = true) :
    is_empty_or_dash v = false := by
  cases v with
  | str s =>
      simp only [populatedStr, Bool.and_eq_true, Bool.not_eq_true'] at h
      simp [is_empty_or_dash, h.1, h.2]
  | null => simp [populatedStr] at h
  | dict es => simp [populatedStr] at h
  | list l => simp [populatedStr] at h

/-- C4 (counterexample): one day after the last checkpoint the code's
window is `min(60, max(1, 1 + 1)) = 2`, while the §8 formulation
`max(1, elapsed_days)` clamped gives 1. -/
theorem C4_formulations_disagree_cex :
    calculate_sync_days 1 (some 1) = 2 ∧ spec8_window 1 = 1 ∧ (2 : Int) ≠ 1 := by
  refine ⟨by decide, by decide, by decide⟩

/-- C4 (amended): the lookback is 60 with no invoices or no recorded sync
timestamp, and otherwise `min(60, max(1, elapsed_days + 1))`; the §8
formulation `max(1, elapsed_days)` clamped to 60 agrees with the code
exactly when `elapsed_days ≤ 0` or `elapsed_days ≥ 60`, and is one day
short everywhere in between. -/
theorem C4_lookback_window_amended :
    (∀ last, calculate_sync_days 0 last = 60) ∧
    (∀ n, calculate_sync_days n none = 60) ∧
    (∀ n d, calculate_sync_days (n + 1) (some d) = min 60 (max 1 (d + 1))) ∧
    (∀ n d, calculate_sync_days (n + 1) (some d) = spec8_window d ↔ (d ≤ 0 ∨ 60 ≤ d)) := by
  refine ⟨fun last => rfl, fun n => ?_, fun n d => rfl, fun n d => ?_⟩
  · cases n <;> rfl
  · simp only [calculate_sync_days, spec8_window, Nat.succ_ne_zero, if_false]
    omega

/-- C9: for every invoice count and every elapsed-day value (even a
negative one from a future timestamp) the computed window lies in
`[1, 60]`; `lista_mesaje_factura` rejects an integer day count exactly
when it falls outside `[1, 60]`; hence the orchestrator's window never
trips the listing validation. -/
theorem C9_window_within_listing_bounds :
    (∀ n last, 1 ≤ calculate_sync_days n last ∧ calculate_sync_days n last ≤ 60) ∧
    (∀ z : Int, lista_mesaje_zile_rejected z = true ↔ (z < 1 ∨ 60 < z)) ∧
    (∀ n last, lista_mesaje_zile_rejected (calculate_sync_days n last) = false) := by
  have h1 : ∀ n last, 1 ≤ calculate_sync_days n last ∧ calculate_sync_days n last ≤ 60 := by
    intro n last
    cases n <;> cases last <;> simp only [calculate_sync_days] <;> omega
  have h2 : ∀ z : Int, lista_mesaje_zile_rejected z = true ↔ (z < 1 ∨ 60 < z) := by
    intro z
    simp [lista_mesaje_zile_rejected]
  refine ⟨h1, h2, fun n last => ?_⟩
  have := h1 n last
  rcases h : lista_mesaje_zile_rejected (calculate_sync_days n last) with _ | _
  · rfl
  · exact absurd ((h2 _).mp h) (by omega)

/-- C5 (counterexample): on an unparsable document the extractor does not
raise — it returns, normally, the minimal error-marked structure. -/
theorem C5_no_exception_on_unparsable_cex :
    parse_xml_to_json none = parseFailureResult ∧
    (parse_xml_to_json none).error = true :=
  ⟨rfl, rfl⟩

/-- C5 (amended): `parse_xml_to_json` never raises: a document that
cannot be parsed as markup yields the minimal error-marked structure with
every field null, a parseable document never carries the error mark, and
absent fields yield null values (shown on the empty document). -/
theorem C5_error_handling_amended :
    (∀ d, (parse_xml_to_json (some d)).error = false) ∧
    parse_xml_to_json none = parseFailureResult ∧
    ((parse_xml_to_json (some (.dict []))).issuer_name = XVal.null ∧
     (parse_xml_to_json (some (.dict []))).receiver_name = XVal.null ∧
     (parse_xml_to_json (some (.dict []))).issuer_vat_id = XVal.null ∧
     (parse_xml_to_json (some (.dict []))).receiver_vat_id = XVal.null ∧
     (parse_xml_to_json (some (.dict []))).invoice_date = none ∧
     (parse_xml_to_json (some (.dict []))).invoice_number = XVal.null ∧
     (parse_xml_to_json (some (.dict []))).total_amount = none ∧
     (parse_xml_to_json (some (.dict []))).currency = XVal.null) :=
  ⟨fun _ => rfl, rfl, rfl, rfl, rfl, rfl, rfl, rfl, rfl, rfl⟩

/-- C1 (counterexample): an invoice whose `invoice_date` is populated is
nevertheless rewritten by the sync update path to the listing pass's
differing `data_creare` date. -/
theorem C1_sync_date_overwrite_cex :
    c1Invoice.invoice_date = some (2025, 1, 1) ∧
    (syncUpdateExisting c1Invoice c1Msg (some (some c1Fields)) none).invoice_date
      = some (2025, 2, 2) ∧
    ((2025, 2, 2) : Date) ≠ (2025, 1, 1) :=
  ⟨rfl, rfl, by decide⟩

theorem reparse_invoice_shape (inv : InvoiceRec) (zipXml : Option Str)
    (xmlDict : Str → Option XVal) :
    (reparse_invoice inv zipXml xmlDict).1 = inv ∨
    ∃ xml, (reparse_invoice inv zipXml xmlDict).1 =
      (reparseApply { inv with xml_content := some xml }
        (extract_invoice_fields (parse_xml_to_json (xmlDict xml)))).1 := by
  unfold reparse_invoice
  rcases zipXml with _ | x
  · rcases hxc : inv.xml_content with _ | xc
    · simp [hxc]
    · simp only [hxc]
      by_cases he : xc.isEmpty
      · simp [he]
      · right
        exact ⟨xc, by simp [he]⟩
  · by_cases hxe : x.isEmpty
    · rcases hxc : inv.xml_content with _ | xc
      · simp [hxe, hxc]
      · simp only [hxe, hxc]
        by_cases he : xc.isEmpty
        · simp [he, hxe, hxc]
        · right
          exact ⟨xc, by simp [he, hxe, hxc]⟩
    · right
      exact ⟨x, by simp [hxe]⟩

/-- C1 (amended): for issuer name, receiver name, both VAT ids, total
amount and currency, first-non-empty-wins holds in both the sync update
path and the reparse pass: a populated field (an actual string that is
neither blank nor the dash sentinel after stripping; a present total) is
never overwritten, whatever the pass extracts.  The invoice date is
preserved by reparse unconditionally, but not by the sync path (see the
counterexample). -/
theorem C1_first_nonempty_wins_amended :
    (∀ (inv : InvoiceRec) (msg : ListingMsg) (dl : Option (Option ExtractedFields))
       (zs : Option Str),
       (populatedStr inv.issuer_name = true →
          (syncUpdateExisting inv msg dl zs).issuer_name = inv.issuer_name) ∧
       (populatedStr inv.receiver_name = true →
          (syncUpdateExisting inv msg dl zs).receiver_name = inv.receiver_name) ∧
       (populatedStr inv.cif_emitent = true →
          (syncUpdateExisting inv msg dl zs).cif_emitent = inv.cif_emitent) ∧
       (populatedStr inv.cif_beneficiar = true →
          (syncUpdateExisting inv msg dl zs).cif_beneficiar = inv.cif_beneficiar) ∧
       (inv.total_amount.isSome = true →
          (syncUpdateExisting inv msg dl zs).total_amount = inv.total_amount) ∧
       (populatedStr inv.currency = true →
          (syncUpdateExisting inv msg dl zs).currency = inv.currency)) ∧
    (∀ (inv : InvoiceRec) (zipXml : Option Str) (xmlDict : Str → Option XVal),
       (populatedStr inv.issuer_name = true →
          (reparse_invoice inv zipXml xmlDict).1.issuer_name = inv.issuer_name) ∧
       (populatedStr inv.receiver_name = true →
          (reparse_invoice inv zipXml xmlDict).1.receiver_name = inv.receiver_name) ∧
       (populatedStr inv.cif_emitent = true →
          (reparse_invoice inv zipXml xmlDict).1.cif_emitent = inv.cif_emitent) ∧
       (populatedStr inv.cif_beneficiar = true →
          (reparse_invoice inv zipXml xmlDict).1.cif_beneficiar = inv.cif_beneficiar) ∧
       (inv.total_amount.isSome = true →
          (reparse_invoice inv zipXml xmlDict).1.total_amount = inv.total_amount) ∧
       (populatedStr inv.currency = true →
          (reparse_invoice inv zipXml xmlDict).1.currency = inv.currency) ∧
       (reparse_invoice inv zipXml xmlDict).1.invoice_date = inv.invoice_date) := by
  constructor
  · intro inv msg dl zs
    refine ⟨fun h => ?_, fun h => ?_, fun h => ?_, fun h => ?_, fun h => ?_, fun h => ?_⟩
    · have hd := populated_not_empty_dash h
      simp only [syncUpdateExisting]
      split
      · rfl
      · rcases dl with _ | ⟨_ | f⟩
        · rfl
        · rfl
        · simp [hd]
    · have hd := populated_not_empty_dash h
      simp only [syncUpdateExisting]
      split
      · rfl
      · rcases dl with _ | ⟨_ | f⟩
        · rfl
        · rfl
        · simp [hd]
    · have hx := populated_truthy h
      have hd := populated_not_empty_dash h
      simp only [syncUpdateExisting]
      split
      · simp [hx]
      · rcases dl with _ | ⟨_ | f⟩
        · simp [hx]
        · simp [hx]
        · simp [hx, hd]
    · have hx := populated_truthy h
      have hd := populated_not_empty_dash h
      simp only [syncUpdateExisting]
      split
      · simp [hx]
      · rcases dl with _ | ⟨_ | f⟩
        · simp [hx]
        · simp [hx]
        · simp [hx, hd]
    · obtain ⟨q, hq⟩ := Option.isSome_iff_exists.mp h
      simp only [syncUpdateExisting]
      split
      · rfl
      · rcases dl with _ | ⟨_ | f⟩
        · rfl
        · rfl
        · simp [hq]
    · have hd := populated_not_empty_dash h
      simp only [syncUpdateExisting]
      split
      · rfl
      · rcases dl with _ | ⟨_ | f⟩
        · rfl
        · rfl
        · simp [hd]
  · intro inv zipXml xmlDict
    refine ⟨fun h => ?_, fun h => ?_, fun h => ?_, fun h => ?_, fun h => ?_, fun h => ?_, ?_⟩
    · have hd := populated_not_empty_dash h
      rcases reparse_invoice_shape inv zipXml xmlDict with h1 | ⟨xml, h2⟩
      · rw [h1]
      · rw [h2]; simp [reparseApply, hd]
    · have hd := populated_not_empty_dash h
      rcases reparse_invoice_shape inv zipXml xmlDict with h1 | ⟨xml, h2⟩
      · rw [h1]
      · rw [h2]; simp [reparseApply, hd]
    · have hd := populated_not_empty_dash h
      rcases reparse_invoice_shape inv zipXml xmlDict with h1 | ⟨xml, h2⟩
      · rw [h1]
      · rw [h2]; simp [reparseApply, hd]
    · have hd := populated_not_empty_dash h
      rcases reparse_invoice_shape inv zipXml xmlDict with h1 | ⟨xml, h2⟩
      · rw [h1]
      · rw [h2]; simp [reparseApply, hd]
    · obtain ⟨q, hq⟩ := Option.isSome_iff_exists.mp h
      rcases reparse_invoice_shape inv zipXml xmlDict with h1 | ⟨xml, h2⟩
      · rw [h1]
      · rw [h2]; simp [reparseApply, hq]
    · have hd := populated_not_empty_dash h
      rcases reparse_invoice_shape inv zipXml xmlDict with h1 | ⟨xml, h2⟩
      · rw [h1]
      · rw [h2]; simp [reparseApply, hd]
    · rcases reparse_invoice_shape inv zipXml xmlDict with h1 | ⟨xml, h2⟩
      · rw [h1]
      · rw [h2]; simp [reparseApply]

/-- C1 (witness): the amended preservation applied at the concrete
populated record, listing message and freshly extracted fields. -/
theorem C1_first_nonempty_wins_amended_witness :
    populatedStr c1Invoice.issuer_name = true ∧
    (syncUpdateExisting c1Invoice c1Msg (some (some c1Fields)) none).issuer_name
      = c1Invoice.issuer_name ∧
    (syncUpdateExisting c1Invoice c1Msg (some (some c1Fields)) none).currency
      = c1Invoice.currency ∧
    c1Invoice.total_amount.isSome = true ∧
    (syncUpdateExisting c1Invoice c1Msg (some (some c1Fields)) none).total_amount
      = c1Invoice.total_amount ∧
    (reparse_invoice c1Invoice none (fun _ => none)).1.cif_emitent
      = c1Invoice.cif_emitent ∧
    (reparse_invoice c1Invoice none (fun _ => none)).1.invoice_date
      = c1Invoice.invoice_date :=
  ⟨by decide,
   (C1_first_nonempty_wins_amended.1 c1Invoice c1Msg (some (some c1Fields)) none).1
     (by decide),
   (C1_first_nonempty_wins_amended.1 c1Invoice c1Msg (some (some c1Fields)) none).2.2.2.2.2
     (by decide),
   by decide,
   (C1_first_nonempty_wins_amended.1 c1Invoice c1Msg (some (some c1Fields)) none).2.2.2.2.1
     (by decide),
   (C1_first_nonempty_wins_amended.2 c1Invoice none (fun _ => none)).2.2.1
     (by decide),
   (C1_first_nonempty_wins_amended.2 c1Invoice none (fun _ => none)).2.2.2.2.2.2⟩

theorem strStartsWith_incomp : ∀ (q p s : Str), strStartsWith s p = true →
    strStartsWith p q = false → strStartsWith q p = false → strStartsWith s q = false
  | [], p, _, _, hpq, _ => by simp [strStartsWith] at hpq
  | _ :: _, [], _, _, _, hqp => by simp [strStartsWith] at hqp
  | _ :: _, _ :: _, [], hp, _, _ => by simp [strStartsWith] at hp
  | c :: qs, a :: ps, b :: ss, hp, hpq, hqp => by
      simp only [strStartsWith, Bool.and_eq_true, Bool.and_eq_false_iff] at hp hpq hqp ⊢
      obtain ⟨hba, hsp⟩ := hp
      have hb : b = a := by simpa using hba
      by_cases hac : a = c
      · have h1 : strStartsWith ps qs = false := by
          rcases hpq with h | h
          · rw [hac] at h
            simp at h
          · exact h
        have h2 : strStartsWith qs ps = false := by
          rcases hqp with h | h
          · rw [hac] at h
            simp at h
          · exact h
        exact Or.inr (strStartsWith_incomp qs ps ss hsp h1 h2)
      · exact Or.inl (by simp [hb, hac])

theorem qualifies_of_scanAccepts {c : Str} (h : scanAccepts c = true) :
    invoiceQualifies c = true := by
  simp only [scanAccepts, Bool.or_eq_true, Bool.and_eq_true] at h
  simp only [invoiceQualifies, Bool.or_eq_true, Bool.and_eq_true]
  rcases h with h | h
  · exact Or.inl h
  · exact Or.inr ⟨h.1.1, h.1.2⟩

theorem contentScan_none (l : List ZipMember)
    (h : ∀ n c, (n, some c) ∈ l → invoiceQualifies c = false) :
    contentScan l = (none, none) := by
  induction l with
  | nil => rfl
  | cons m rest ih =>
      obtain ⟨n, c?⟩ := m
      have hrest := ih (fun n c hm => h n c (List.mem_cons_of_mem _ hm))
      cases c? with
      | none => simpa [contentScan] using hrest
      | some c =>
          have hq := h n c (List.mem_cons_self _ _)
          have hs : scanAccepts c = false := by
            by_cases hsc : scanAccepts c = true
            · exact absurd (qualifies_of_scanAccepts hsc) (by simp [hq])
            · simpa using hsc
          simpa [contentScan, hs] using hrest

theorem contentScan_shape (l : List ZipMember) :
    contentScan l = (none, none) ∨ ∃ c n, contentScan l = (some c, some n) := by
  induction l with
  | nil => exact Or.inl rfl
  | cons m rest ih =>
      obtain ⟨n, c?⟩ := m
      cases c? with
      | none => simpa [contentScan] using ih
      | some c =>
          by_cases hsc : scanAccepts c = true
          · exact Or.inr ⟨c, n, by simp [contentScan, hsc]⟩
          · have hs : scanAccepts c = false := by simpa using hsc
            simpa [contentScan, hs] using ih

/-- C10: the disambiguator is total at its interface: for every archive —
including ones with no markup members or with unreadable members — it
returns either a full (content, name) pair or (None, None); exceptions
are absorbed by its handlers (modelled by the `none` reads). -/
theorem C10_extract_total_shape (members : List ZipMember) :
    extract_unsigned_xml_from_zip members = (none, none) ∨
      ∃ c n, extract_unsigned_xml_from_zip members = (some c, some n) := by
  unfold extract_unsigned_xml_from_zip
  split
  · exact Or.inl rfl
  · split
    · exact contentScan_shape _
    · split
      · exact Or.inl rfl
      · split
        · exact contentScan_shape _
        · split
          · exact Or.inr ⟨_, _, rfl⟩
          · exact Or.inl rfl

/-- C2 (counterexample): with the signature member named `sig.xml` and
the invoice member named `inv.txt`, the extension filter leaves only the
signature member in play and the function returns `(None, None)` instead
of the invoice member — naming is not irrelevant. -/
theorem C2_extension_filter_cex :
    strStartsWith (strStrip sigContent) (S "<Signature") = true ∧
    strStartsWith (strStrip invContent) (S "<Invoice") = true ∧
    extract_unsigned_xml_from_zip c2CexMembers = (none, none) :=
  ⟨by decide, by decide, by decide⟩

/-- C2 (amended): for a two-member archive in which both members are
named `*.xml`, one member's stripped content is rooted at `<Signature`,
and the other's is rooted at `<Invoice` with no `<Signature` within its
first 500 stripped characters, the function returns the invoice member in
either member order and under any `semnatura_` naming; and for every
archive in which no readable member qualifies as an invoice document it
returns `(None, None)`. -/
theorem C2_disambiguation_amended :
    (∀ (nS cS nI cI : Str),
       strHasSuffix nS (S ".xml") = true →
       strHasSuffix nI (S ".xml") = true →
       nI ≠ nS →
       strStartsWith (strStrip cS) (S "<Signature") = true →
       strStartsWith (strStrip cI) (S "<Invoice") = true →
       strContainsSub (strTake (strStrip cI) 500) (S "<Signature") = false →
       extract_unsigned_xml_from_zip [(nS, some cS), (nI, some cI)]
         = (some cI, some nI) ∧
       extract_unsigned_xml_from_zip [(nI, some cI), (nS, some cS)]
         = (some cI, some nI)) ∧
    (∀ members, (∀ n c, (n, some c) ∈ members → invoiceQualifies c = false) →
       extract_unsigned_xml_from_zip members = (none, none)) := by
  constructor
  · intro nS cS nI cI hnS hnI hne hS hI hclean
    have hIsig : strStartsWith (strStrip cI) (S "<Signature") = false :=
      strStartsWith_incomp _ _ _ hI (by decide) (by decide)
    have hSinv : strStartsWith (strStrip cS) (S "<Invoice") = false :=
      strStartsWith_incomp _ _ _ hS (by decide) (by decide)
    have hSxml : strStartsWith (strStrip cS) (S "<?xml") = false :=
      strStartsWith_incomp _ _ _ hS (by decide) (by decide)
    have hsneq : (nI == nS) = false := beq_eq_false_iff_ne.mpr hne
    have hScont : scanAccepts cS = false := by
      simp [scanAccepts, hSinv, hSxml]
    have hIacc : scanAccepts cI = true := by
      simp [scanAccepts, hI]
    constructor
    · by_cases hbS : strStartsWith nS (S "semnatura_") = true
      · by_cases hbI : strStartsWith nI (S "semnatura_") = true
        · simp [extract_unsigned_xml_from_zip, xmlMembers, unsignedMembers, hnS, hnI,
                hbS, hbI, contentScan, hScont, hIacc]
        · have hbI' : strStartsWith nI (S "semnatura_") = false := by simpa using hbI
          simp [extract_unsigned_xml_from_zip, xmlMembers, unsignedMembers, hnS, hnI,
                hbS, hbI', hIsig, hclean, hI]
      · have hbS' : strStartsWith nS (S "semnatura_") = false := by simpa using hbS
        simp [extract_unsigned_xml_from_zip, xmlMembers, unsignedMembers, hnS, hnI,
              hbS', hS, hsneq, contentScan, hIacc, hScont]
    · by_cases hbI : strStartsWith nI (S "semnatura_") = true
      · by_cases hbS : strStartsWith nS (S "semnatura_") = true
        · simp [extract_unsigned_xml_from_zip, xmlMembers, unsignedMembers, hnS, hnI,
                hbS, hbI, contentScan, hIacc]
        · have hbS' : strStartsWith nS (S "semnatura_") = false := by simpa using hbS
          simp [extract_unsigned_xml_from_zip, xmlMembers, unsignedMembers, hnS, hnI,
                hbS', hbI, hS, hsneq, contentScan, hIacc, hScont]
      · have hbI' : strStartsWith nI (S "semnatura_") = false := by simpa using hbI
        simp [extract_unsigned_xml_from_zip, xmlMembers, unsignedMembers, hnS, hnI,
              hbI', hIsig, hclean, hI]
  · intro members h
    have hall : ∀ n c, (n, some c) ∈ xmlMembers members → invoiceQualifies c = false :=
      fun n c hm => h n c (List.mem_filter.mp hm).1
    by_cases hE : (xmlMembers members).isEmpty = true
    · simp [extract_unsigned_xml_from_zip, hE]
    · rcases hu : unsignedMembers (xmlMembers members) with _ | ⟨⟨uname, uread⟩, tail⟩
      · simp only [extract_unsigned_xml_from_zip, hE, hu, if_false, Bool.not_eq_true]
        exact contentScan_none _ hall
      · have hmem : (uname, uread) ∈ xmlMembers members := by
          have hm : (uname, uread) ∈ unsignedMembers (xmlMembers members) := by
            rw [hu]
            exact List.mem_cons_self _ _
          exact (List.mem_filter.mp hm).1
        cases uread with
        | none => simp [extract_unsigned_xml_from_zip, hE, hu]
        | some c =>
            have hq : invoiceQualifies c = false := hall _ _ hmem
            have hq2 : (strStartsWith (strStrip c) (S "<Invoice") ||
                (strStartsWith (strStrip c) (S "<?xml") &&
                  strContainsSub (strTake c 500) (S "<Invoice"))) = false := hq
            by_cases hsig : (strStartsWith (strStrip c) (S "<Signature") ||
                strContainsSub (strTake (strStrip c) 500) (S "<Signature")) = true
            · have hscan := contentScan_none
                ((xmlMembers members).filter (fun m => !(m.1 == uname)))
                (fun n c2 hm => hall n c2 (List.mem_filter.mp hm).1)
              simp [extract_unsigned_xml_from_zip, hE, hu, hsig, hscan]
            · have hsig' : (strStartsWith (strStrip c) (S "<Signature") ||
                  strContainsSub (strTake (strStrip c) 500) (S "<Signature")) = false := by
                simpa using hsig
              simp [extract_unsigned_xml_from_zip, hE, hu, hsig', hq2]

/-- C2 (witness): the amended statement applied to the canonical ANAF
archive shape and to a signature-only archive. -/
theorem C2_disambiguation_amended_witness :
    extract_unsigned_xml_from_zip
        [(S "semnatura_4001.xml", some sigContent), (S "4001.xml", some invContent)]
      = (some invContent, some (S "4001.xml")) ∧
    extract_unsigned_xml_from_zip [(S "a.xml", some sigContent)] = (none, none) :=
  ⟨(C2_disambiguation_amended.1 (S "semnatura_4001.xml") sigContent
      (S "4001.xml") invContent (by decide) (by decide) (by decide) (by decide)
      (by decide) (by decide)).1,
   C2_disambiguation_amended.2 [(S "a.xml", some sigContent)]
     (by
       intro n c hm
       simp only [List.mem_singleton, Prod.mk.injEq, Option.some.injEq] at hm
       rw [hm.2]
       decide)⟩

/-- C8 (counterexample): a line whose only populated field is the VAT
category is dropped, although one of its fields is non-empty. -/
theorem C8_vat_only_line_dropped_cex :
    (buildLineItem c8VatOnlyLine).vat_category = XVal.str (S "S") ∧
    extract_invoice_line_items_loop [c8VatOnlyLine] = [] :=
  ⟨rfl, rfl⟩

/-- C8 (amended): a line item is kept exactly when at least one of line
id, item name, quantity, unit price or line total is non-empty — VAT
rate/category, unit code and currency do not count; and an unparsable
numeric sub-field is left null without discarding the item. -/
theorem C8_line_item_keep_amended :
    (∀ lines, extract_invoice_line_items_loop lines =
       ((lines.filter xIsDict).map buildLineItem).filter specLineKept) ∧
    ((buildLineItem c8UnparsableQtyLine).quantity = none ∧
     extract_invoice_line_items_loop [c8UnparsableQtyLine]
       = [buildLineItem c8UnparsableQtyLine]) := by
  refine ⟨fun lines => ?_, rfl, rfl⟩
  induction lines with
  | nil => rfl
  | cons line rest ih =>
      simp only [extract_invoice_line_items_loop] at ih ⊢
      by_cases hd : xIsDict line = true
      · by_cases hk : lineItemHasData (buildLineItem line) = true
        · have hk2 : specLineKept (buildLineItem line) = true := hk
          simp [List.filterMap_cons, List.filter_cons, List.map_cons, hd, hk, hk2, ih]
        · have hk0 : lineItemHasData (buildLineItem line) = false := by simpa using hk
          have hk2 : specLineKept (buildLineItem line) = false := hk0
          simp [List.filterMap_cons, List.filter_cons, List.map_cons, hd, hk0, hk2, ih]
      · have hd0 : xIsDict line = false := by simpa using hd
        simp [List.filterMap_cons, List.filter_cons, hd0, ih]

theorem vatSchemeLoop_eq_spec (schemes : List XVal) :
    vatSchemeLoop schemes = specVatPick schemes := by
  induction schemes with
  | nil => rfl
  | cons ts rest ih =>
      by_cases hd : xIsDict ts = true
      · by_cases he : specVatEligible ts = true
        · by_cases hc : xTruthy (taxSchemeCompanyId ts) = true
          · have hp : (xIsDict ts && specVatEligible ts &&
                xTruthy (taxSchemeCompanyId ts)) = true := by
              simp [hd, he, hc]
            have he2 : (!(xTruthy (taxSchemeId ts)) ||
                xEqStr (extract_text_value (taxSchemeId ts)) (S "VAT")) = true := he
            simp [vatSchemeLoop, specVatPick, List.find?_cons, hd, he, he2, hc, hp]
          · have hc0 : xTruthy (taxSchemeCompanyId ts) = false := by simpa using hc
            have hp : (xIsDict ts && specVatEligible ts &&
                xTruthy (taxSchemeCompanyId ts)) = false := by
              simp [hc0]
            have he2 : (!(xTruthy (taxSchemeId ts)) ||
                xEqStr (extract_text_value (taxSchemeId ts)) (S "VAT")) = true := he
            simp [vatSchemeLoop, specVatPick, List.find?_cons, hd, he2, hc0, hp, ih]
        · have he0 : specVatEligible ts = false := by simpa using he
          have hp : (xIsDict ts && specVatEligible ts &&
              xTruthy (taxSchemeCompanyId ts)) = false := by
            simp [he0]
          have he2 : (!(xTruthy (taxSchemeId ts)) ||
              xEqStr (extract_text_value (taxSchemeId ts)) (S "VAT")) = false := he0
          simp [vatSchemeLoop, specVatPick, List.find?_cons, hd, he0, he2, hp, ih]
      · have hd0 : xIsDict ts = false := by simpa using hd
        have hp : (xIsDict ts && specVatEligible ts &&
            xTruthy (taxSchemeCompanyId ts)) = false := by
          simp [hd0]
        simp [vatSchemeLoop, specVatPick, List.find?_cons, hd0, hp, ih]

/-- C6 (counterexample): for a party whose first tax-scheme block is
untagged (company id `111`) and whose second is tagged `VAT` (company id
`222`), the extractor returns `111`, not the VAT-tagged `222`. -/
theorem C6_untagged_first_wins_cex :
    (parse_xml_to_json (some c6Doc)).issuer_vat_id = XVal.str (S "111") ∧
    S "111" ≠ S "222" :=
  ⟨rfl, by decide⟩

/-- C6 (amended): the VAT identifier of a party is the company id of the
first tax-scheme block, in document order, that is untagged or explicitly
tagged `VAT` and carries a company id; blocks tagged with another scheme
are skipped, but an untagged block is not skipped in favour of a later
VAT-tagged one.  Stated both for the party-level extractor and through
the whole document parse. -/
theorem C6_vat_scheme_amended (schemes : List XVal) :
    extractPartyVatId (.dict [(S "PartyTaxScheme", XVal.list schemes)])
      = specVatPick schemes ∧
    (parse_xml_to_json (some (c6DocWith schemes))).issuer_vat_id
      = specVatPick schemes := by
  constructor
  · cases schemes with
    | nil => rfl
    | cons a t =>
        show vatSchemeLoop (a :: t) = specVatPick (a :: t)
        exact vatSchemeLoop_eq_spec _
  · cases schemes with
    | nil => rfl
    | cons a t =>
        show vatSchemeLoop (a :: t) = specVatPick (a :: t)
        exact vatSchemeLoop_eq_spec _

theorem cascadeStep_of_cand (lmt : XVal) (keys : List KeyPath) (o : Option Str)
    (hobj : safe_get lmt keys XVal.null = cand o) (st : Option Dec × XVal) :
    cascadeStep lmt keys st = stepCand o st := by
  cases o with
  | none =>
      simp only [cascadeStep, hobj, cand]
      rfl
  | some s =>
      simp only [cascadeStep, hobj, cand]
      cases s with
      | nil => rfl
      | cons ch t =>
          by_cases hE : (strStrip (ch :: t)).isEmpty = true
          · have hE2 : strStrip (ch :: t) = [] := by simpa using hE
            simp [extract_amount_and_currency, extract_text_value, xTruthy, hE, hE2,
                  stepCand, candidateParse]
          · simp only [extract_amount_and_currency, extract_text_value, xTruthy,
              hE, stepCand, candidateParse, pyStr, List.isEmpty_cons,
              Bool.not_false, if_true, Bool.false_eq_true, if_false, Option.some_bind]
            cases hP : parseDecimal (strStrip (ch :: t)) with
            | none => simp [hP, hE]
            | some d => simp [hP, hE]

theorem cascade_mkLMT4 (o1 o2 o3 o4 : Option Str) (c0 : XVal) :
    legalMonetaryCascade (mkLMT4 o1 o2 o3 o4) c0
      = stepsCand [o1, o2, o3, o4] (none, c0) := by
  have h1 := cascadeStep_of_cand (mkLMT4 o1 o2 o3 o4)
    [.single (S "cbc:PayableAmount"), .single (S "PayableAmount"),
     .single (S "payableAmount")] o1 rfl
  have h2 := cascadeStep_of_cand (mkLMT4 o1 o2 o3 o4)
    [.single (S "cbc:TaxInclusiveAmount"), .single (S "TaxInclusiveAmount"),
     .single (S "taxInclusiveAmount")] o2 rfl
  have h3 := cascadeStep_of_cand (mkLMT4 o1 o2 o3 o4)
    [.single (S "cbc:TaxExclusiveAmount"), .single (S "TaxExclusiveAmount"),
     .single (S "taxExclusiveAmount")] o3 rfl
  have h4 := cascadeStep_of_cand (mkLMT4 o1 o2 o3 o4)
    [.single (S "cbc:LineExtensionAmount"), .single (S "LineExtensionAmount"),
     .single (S "lineExtensionAmount")] o4 rfl
  simp only [legalMonetaryCascade, stepsCand, h1, h2, h3, h4, decTruthy,
    Bool.not_false, if_true]

theorem goCascade_truthy : ∀ (ps : List (Option Dec)) (cur : Option Dec),
    decTruthy cur = true → goCascade cur ps = cur
  | [], _, _ => rfl
  | p :: ps, cur, h => by simp [goCascade, h]

theorem stepCand_snd (o : Option Str) (st : Option Dec × XVal) :
    (stepCand o st).2 = st.2 := by
  unfold stepCand
  cases candidateParse o <;> rfl

theorem stepCand_fst (o : Option Str) (st : Option Dec × XVal) :
    (stepCand o st).1 =
      (match candidateParse o with | some d => some d | none => st.1) := by
  unfold stepCand
  cases candidateParse o <;> rfl

theorem stepsCand_spec : ∀ (os : List (Option Str)) (st : Option Dec × XVal),
    (stepsCand os st).1 = goCascade st.1 (os.map candidateParse) ∧
    (stepsCand os st).2 = st.2
  | [], st => ⟨rfl, rfl⟩
  | o :: os, st => by
      by_cases hT : decTruthy st.1 = true
      · have hstep : (if !(decTruthy st.1) then stepCand o st else st) = st := by
          simp [hT]
        have ih := stepsCand_spec os st
        constructor
        · calc (stepsCand (o :: os) st).1 = (stepsCand os st).1 := by
                rw [stepsCand, hstep]
            _ = goCascade st.1 (os.map candidateParse) := ih.1
            _ = st.1 := goCascade_truthy _ _ hT
            _ = goCascade st.1 ((o :: os).map candidateParse) :=
                (goCascade_truthy _ _ hT).symm
        · calc (stepsCand (o :: os) st).2 = (stepsCand os st).2 := by
                rw [stepsCand, hstep]
            _ = st.2 := ih.2
      · have hT0 : decTruthy st.1 = false := by simpa using hT
        have hstep : (if !(decTruthy st.1) then stepCand o st else st)
            = stepCand o st := by simp [hT0]
        have ih := stepsCand_spec os (stepCand o st)
        constructor
        · calc (stepsCand (o :: os) st).1 = (stepsCand os (stepCand o st)).1 := by
                rw [stepsCand, hstep]
            _ = goCascade (stepCand o st).1 (os.map candidateParse) := ih.1
            _ = goCascade st.1 ((o :: os).map candidateParse) := by
                rw [stepCand_fst]
                simp only [List.map_cons, goCascade, hT0, Bool.false_eq_true,
                  if_false]
        · calc (stepsCand (o :: os) st).2 = (stepsCand os (stepCand o st)).2 := by
                rw [stepsCand, hstep]
            _ = (stepCand o st).2 := ih.2
            _ = st.2 := stepCand_snd o st

theorem lastParsed_cons_isSome : ∀ (e : Dec) (qs : List Dec),
    (lastParsed (e :: qs)).isSome = true
  | _, [] => rfl
  | _, f :: qs => lastParsed_cons_isSome f qs

theorem goCascade_spec : ∀ (ps : List (Option Dec)) (cur : Option Dec),
    decTruthy cur = false →
    goCascade cur ps =
      (match (ps.filterMap id).find? (fun d => d.num ≠ 0) with
       | some d => some d
       | none =>
           match lastParsed (ps.filterMap id) with
           | some d => some d
           | none => cur)
  | [], cur, _ => rfl
  | none :: ps, cur, h => by
      have ih := goCascade_spec ps cur h
      simpa [goCascade, h] using ih
  | some d :: ps, cur, h => by
      have hq : List.filterMap id (some d :: ps) = d :: List.filterMap id ps := by
        simp
      have hL : goCascade cur (some d :: ps) = goCascade (some d) ps := by
        simp [goCascade, h]
      by_cases hz : d.num = 0
      · have hzT : decTruthy (some d) = false := by simp [decTruthy, hz]
        have hpred : (decide (d.num ≠ 0)) = false := by simp [hz]
        have ih := goCascade_spec ps (some d) hzT
        rw [hL, ih, hq, List.find?_cons]
        simp only [hpred]
        cases hf : (List.filterMap id ps).find? (fun d => d.num ≠ 0) with
        | some e => rfl
        | none =>
            cases hcl : List.filterMap id ps with
            | nil => simp [lastParsed]
            | cons e qs =>
                obtain ⟨x, hx⟩ :=
                  Option.isSome_iff_exists.mp (lastParsed_cons_isSome e qs)
                simp only [lastParsed, hx]
      · have hzT : decTruthy (some d) = true := by simp [decTruthy, hz]
        have hpred : (decide (d.num ≠ 0)) = true := by simp [hz]
        rw [hL, goCascade_truthy _ _ hzT, hq, List.find?_cons]
        simp only [hpred]

/-- C3 (counterexample): with the totals block populated as
`PayableAmount = "0"`, `TaxInclusiveAmount = "5"`, the first non-empty
candidate is `0` but the extracted total is `5`: a zero candidate is
falsy and gets overwritten, so first-non-empty-wins fails. -/
theorem C3_zero_payable_cex :
    xGet (xGet (xGet c3ZeroDoc (S "Invoice")) (S "LegalMonetaryTotal")) (S "PayableAmount")
      = XVal.str (S "0") ∧
    (parse_xml_to_json (some c3ZeroDoc)).total_amount = some ⟨5, 0⟩ ∧
    (5 : Int) ≠ 0 :=
  ⟨rfl, by decide, by decide⟩

/-- C3 (amended): within the totals block the candidates are consulted in
the order payable, tax-inclusive, tax-exclusive, line-extension, but a
candidate parsing to zero (or failing to parse) does not stop the
cascade: the first candidate parsing to a nonzero decimal wins, and when
no candidate does, the total is the last parsed (necessarily zero)
candidate, or absent.  The whole-document fallback stands as claimed: a
document without a totals block whose only amount-vocabulary field is
`"120.50"` with no currency attribute yields exactly 120.50 with no
currency. -/
theorem C3_total_cascade_amended :
    (∀ o1 o2 o3 o4 c0,
       (legalMonetaryCascade (mkLMT4 o1 o2 o3 o4) c0).1
         = specFirstNonzero [o1, o2, o3, o4]) ∧
    ((parse_xml_to_json (some c3FallbackDoc)).total_amount = some ⟨12050, 2⟩ ∧
     (parse_xml_to_json (some c3FallbackDoc)).currency = XVal.null ∧
     Dec.toRat ⟨12050, 2⟩ = 241 / 2) := by
  refine ⟨fun o1 o2 o3 o4 c0 => ?_, by decide, rfl, by norm_num [Dec.toRat]⟩
  rw [cascade_mkLMT4, (stepsCand_spec [o1, o2, o3, o4] (none, c0)).1,
      goCascade_spec ([o1, o2, o3, o4].map candidateParse) none rfl]
  simp only [specFirstNonzero, List.filterMap_map, Function.comp_def, id_eq]
  cases hf : (List.filterMap candidateParse [o1, o2, o3, o4]).find?
      (fun d => d.num ≠ 0) with
  | some d => rfl
  | none =>
      cases hl : lastParsed (List.filterMap candidateParse [o1, o2, o3, o4]) <;> rfl

theorem paginatedCalls_le (provider : Nat → XVal) (ps : Nat) :
    ∀ k pagina, 1001 - pagina = k → 1 ≤ pagina → pagina ≤ 1000 →
      paginatedCalls provider ps pagina ≤ 1001 - pagina := by
  intro k
  induction k with
  | zero => intro pagina hk h1 h2; omega
  | succ k ih =>
      intro pagina hk h1 h2
      unfold paginatedCalls
      split
      · dsimp only
        split
        · omega
        · split
          · omega
          · split <;> omega
      · rename_i hguard
        dsimp only
        split
        · omega
        · split
          · omega
          · split
            · omega
            · have hle : pagina + 1 ≤ 1000 := by omega
              have := ih (pagina + 1) (by omega) (by omega) hle
              omega

/-- C7: the pagination loop makes at most 1000 listing calls for every
provider behaviour (the hard page ceiling guarantees termination); a
provider that answers messages on page 1 and a pagination-mentioning
`eroare` from page 2 on yields exactly the page-1 messages; and a
non-pagination error payload on page 1 aborts with that error, which the
sync pass turns into an aborted company pass. -/
theorem C7_pagination_termination :
    (∀ (provider : Nat → XVal) (ps : Nat), paginatedCalls provider ps 1 ≤ 1000) ∧
    (∀ (provider : Nat → XVal) (ps : Nat) (m : List XVal) (e : Str),
       provider 1 = .dict [(S "mesaje", XVal.list m)] →
       (∀ p, 2 ≤ p → provider p = .dict [(S "eroare", XVal.str e)]) →
       strContainsSub (strLower e) (S "paginatie") = true →
       lista_mesaje_factura_paginated (S "123") 60 ps provider
         = .ok ⟨m, .str [], .str (S "123"), .str []⟩) ∧
    (∀ (provider : Nat → XVal) (ps : Nat) (e : Str),
       provider 1 = .dict [(S "eroare", XVal.str e)] →
       strContainsSub (strLower e) (S "paginatie") = false →
       lista_mesaje_factura_paginated (S "123") 60 ps provider = .error e) := by
  refine ⟨fun provider ps => ?_, fun provider ps m e hp1 hp2 hpag => ?_,
    fun provider ps e hp1 hnp => ?_⟩
  · have h := paginatedCalls_le provider ps 1000 1 rfl (by omega) (by omega)
    simpa using h
  · have herr2 : pageError (XVal.dict [(S "eroare", XVal.str e)]) = none := by
      have h0 : pageError (XVal.dict [(S "eroare", XVal.str e)])
          = (if !(strContainsSub (strLower e) (S "paginatie")) then some e else none) :=
        rfl
      rw [h0, hpag]
      rfl
    have hstep : lista_mesaje_factura_paginated (S "123") 60 ps provider
        = paginatedLoop (S "123") provider ps 1 []
            (XVal.str [], XVal.str [], XVal.str []) := rfl
    rw [hstep]
    unfold paginatedLoop
    rw [hp1]
    have e1 : pageError (unwrapResponse (XVal.dict [(S "mesaje", XVal.list m)]))
        = none := rfl
    have e2 : mesajeField (unwrapResponse (XVal.dict [(S "mesaje", XVal.list m)]))
        = XVal.list m := rfl
    simp only [e1, e2]
    cases m with
    | nil => rfl
    | cons a t =>
        have hxt : (!(xTruthy (XVal.list (a :: t)))) = false := rfl
        rw [hxt]
        dsimp only [asPyList]
        by_cases hlen : (a :: t).length < ps
        · rw [if_neg (by simp), if_pos hlen]
          rfl
        · rw [if_neg (by simp), if_neg hlen, if_neg (by omega)]
          unfold paginatedLoop
          rw [hp2 2 (by omega)]
          have e3 : pageError (unwrapResponse (XVal.dict [(S "eroare", XVal.str e)]))
              = none := by
            have : unwrapResponse (XVal.dict [(S "eroare", XVal.str e)])
                = XVal.dict [(S "eroare", XVal.str e)] := rfl
            rw [this, herr2]
          have e4 : mesajeField (unwrapResponse (XVal.dict [(S "eroare", XVal.str e)]))
              = XVal.list [] := rfl
          simp only [e3, e4]
          rfl
  · have herr : pageError (XVal.dict [(S "eroare", XVal.str e)]) = some e := by
      have h0 : pageError (XVal.dict [(S "eroare", XVal.str e)])
          = (if !(strContainsSub (strLower e) (S "paginatie")) then some e else none) :=
        rfl
      rw [h0, hnp]
      rfl
    have hstep : lista_mesaje_factura_paginated (S "123") 60 ps provider
        = paginatedLoop (S "123") provider ps 1 []
            (XVal.str [], XVal.str [], XVal.str []) := rfl
    rw [hstep]
    unfold paginatedLoop
    rw [hp1]
    have e3 : pageError (unwrapResponse (XVal.dict [(S "eroare", XVal.str e)]))
        = some e := by
      have : unwrapResponse (XVal.dict [(S "eroare", XVal.str e)])
          = XVal.dict [(S "eroare", XVal.str e)] := rfl
      rw [this, herr]
    simp only [e3]

/-- C7 (witness): the pagination properties applied to the concrete
one-page provider and to the concrete erroring provider. -/
theorem C7_pagination_termination_witness :
    paginatedCalls c7Provider 500 1 ≤ 1000 ∧
    lista_mesaje_factura_paginated (S "123") 60 500 c7Provider
      = .ok ⟨[XVal.str (S "m1")], .str [], .str (S "123"), .str []⟩ ∧
    lista_mesaje_factura_paginated (S "123") 60 500 c7ProviderErr
      = .error (S "token invalid") :=
  ⟨C7_pagination_termination.1 c7Provider 500,
   C7_pagination_termination.2.1 c7Provider 500 [XVal.str (S "m1")]
     (S "eroare de paginatie") rfl
     (fun p hp => by
       have hne : p ≠ 1 := by omega
       simp [c7Provider, hne])
     (by decide),
   C7_pagination_termination.2.2 c7ProviderErr 500 (S "token invalid") rfl
     (by decide)⟩
